import Mathlib

/-!
Verification model of `MPCControllerSubmodule`.

Shallow embedding of `modules/control/submodules/mpc_controller_submodule.cc`.

Conventions of the embedding:

* `double` values (timestamps, speeds, accelerations, brake levels) are exact rationals;
* protobuf messages are structures holding the fields this translation unit reads or
  writes; an optional field whose presence bit is read (`has_sequence_num`,
  `has_vehicle_signal`, `has_action`) is an `Option`;
* the member variables of the class are the fields of `MPCControllerSubmodule`; the
  configuration (`mpc_controller_conf_`, the gflag), the external controller
  (`mpc_controller_`) and `Header::ShortDebugString` are parameters collected in `Env`;
* logging statements (`AERROR`, `AWARN_EVERY`, `monitor_logger_buffer_`) have no effect on
  the modelled state and are left out;
* `RepeatedPtrField::Get(0)` on an empty list is out of range (undefined behaviour in C++);
  the cycle containing such a read has no result (`none`).
-/

namespace apollo
namespace control

/-! ## Messages -/

/-- Codes of `apollo::common::ErrorCode` that this file produces, and any other code an
external collaborator may return. -/
inductive ErrorCode where
  | OK
  | CONTROL_COMPUTE_ERROR
  | other (code : Nat)
deriving DecidableEq, Repr

/-- Model of `apollo::common::Status`: an error code and a message. -/
structure Status where
  code : ErrorCode
  msg : String
deriving DecidableEq, Repr

/-- The success status, `Status::OK()`. -/
def Status.OK : Status := ⟨ErrorCode.OK, ""⟩

/-- Accessor `Status::ok()`. -/
def Status.ok (s : Status) : Bool := decide (s.code = ErrorCode.OK)

/-- Accessor `Status::error_message()`. -/
def Status.error_message (s : Status) : String := s.msg

/-- Model of `apollo::common::Header`. -/
structure Header where
  timestamp_sec : ℚ
  sequence_num : Option Nat
deriving DecidableEq, Repr

/-- Accessor `Header::has_sequence_num()`. -/
def Header.has_sequence_num (h : Header) : Bool := h.sequence_num.isSome

/-- Accessor `Header::sequence_num()`: the field, or the protobuf default 0 when it is absent. -/
def Header.get_sequence_num (h : Header) : Nat := h.sequence_num.getD 0

/-- A default-constructed `Header`. -/
def Header.empty : Header := ⟨0, none⟩

/-- Enumeration `Chassis::DrivingMode`. -/
inductive DrivingMode where
  | COMPLETE_MANUAL
  | COMPLETE_AUTO_DRIVE
  | AUTO_STEER_ONLY
  | AUTO_SPEED_ONLY
  | EMERGENCY_MODE
deriving DecidableEq, Repr

/-- Enumeration `Chassis::GearPosition`. -/
inductive GearPosition where
  | GEAR_NEUTRAL
  | GEAR_DRIVE
  | GEAR_REVERSE
  | GEAR_PARKING
  | GEAR_LOW
  | GEAR_INVALID
  | GEAR_NONE
deriving DecidableEq, Repr

/-- Model of `apollo::canbus::Chassis`. -/
structure Chassis where
  header : Header
  driving_mode : DrivingMode
  gear_location : GearPosition
deriving DecidableEq, Repr

/-- Model of `apollo::localization::LocalizationEstimate` (the pose is not read here). -/
structure LocalizationEstimate where
  header : Header
deriving DecidableEq, Repr

/-- Model of `apollo::common::TrajectoryPoint`; `relative_time` stands for the fields this
file never touches. -/
structure TrajectoryPoint where
  v : ℚ
  a : ℚ
  relative_time : ℚ
deriving DecidableEq, Repr

/-- Model of `apollo::planning::EStop`. -/
structure EStop where
  is_estop : Bool
  reason : String
deriving DecidableEq, Repr

/-- Enumeration `VehicleSignal::TurnSignal`. -/
inductive TurnSignal where
  | TURN_NONE
  | TURN_LEFT
  | TURN_RIGHT
deriving DecidableEq, Repr

/-- Model of `apollo::common::VehicleSignal`. -/
structure VehicleSignal where
  turn_signal : TurnSignal
  high_beam : Bool
  low_beam : Bool
  horn : Bool
  emergency_light : Bool
deriving DecidableEq, Repr

/-- Model of `apollo::planning::DecisionResult`; `vehicle_signal` is `none` when
`has_vehicle_signal()` is false. -/
structure DecisionResult where
  vehicle_signal : Option VehicleSignal
deriving DecidableEq, Repr

/-- Model of `apollo::planning::ADCTrajectory`. -/
structure ADCTrajectory where
  header : Header
  trajectory_point : List TrajectoryPoint
  estop : EStop
  is_replan : Bool
  decision : DecisionResult
deriving DecidableEq, Repr

/-- Model of `LocalView`: the per-cycle snapshot of the three input streams. -/
structure LocalView where
  chassis : Chassis
  trajectory : ADCTrajectory
  localization : LocalizationEstimate
deriving DecidableEq, Repr

/-- Enumeration `DrivingAction` of the pad message. -/
inductive DrivingAction where
  | STOP
  | START
  | RESET
deriving DecidableEq, Repr

/-- Model of `PadMessage`; `action` is `none` when `has_action()` is false. -/
structure PadMessage where
  action : Option DrivingAction
deriving DecidableEq, Repr

/-- Accessor `PadMessage::action()`: the field, or the protobuf default (the first enumerator). -/
def PadMessage.get_action (p : PadMessage) : DrivingAction := p.action.getD DrivingAction.STOP

/-- Enumeration `MonitorMessageItem::LogLevel`. -/
inductive LogLevel where
  | INFO
  | WARN
  | ERROR
  | FATAL
deriving DecidableEq, Repr

/-- Model of `common::monitor::MonitorMessageItem`. -/
structure MonitorMessageItem where
  log_level : LogLevel
deriving DecidableEq, Repr

/-- Model of `common::monitor::MonitorMessage`. -/
structure MonitorMessage where
  item : List MonitorMessageItem
deriving DecidableEq, Repr

/-- Enumeration `EngageAdvice::Advice`. -/
inductive Advice where
  | UNKNOWN
  | DISALLOW_ENGAGE
  | READY_TO_ENGAGE
  | KEEP_ENGAGED
  | PREPARE_DISENGAGE
deriving DecidableEq, Repr

/-- Model of `apollo::common::EngageAdvice`. -/
structure EngageAdvice where
  advice : Advice
  reason : String
deriving DecidableEq, Repr

/-- Model of `control::InputDebug`: the headers attached to the command for diagnostics. -/
structure InputDebug where
  localization_header : Option Header
  canbus_header : Option Header
  trajectory_header : Option Header
  latest_replan_trajectory_header : Option Header
deriving DecidableEq, Repr

/-- Model of `ControlCommand`; `steering_target` stands for the actuation fields that only
the external controller writes. -/
structure ControlCommand where
  speed : ℚ
  throttle : ℚ
  brake : ℚ
  steering_target : ℚ
  gear_location : GearPosition
  engage_advice : EngageAdvice
  signal : Option VehicleSignal
  input_debug : InputDebug
deriving DecidableEq, Repr

/-- A default-constructed `ControlCommand`, as `Proc` passes to `ProduceControlCommand`. -/
def ControlCommand.empty : ControlCommand :=
  { speed := 0, throttle := 0, brake := 0, steering_target := 0,
    gear_location := GearPosition.GEAR_NEUTRAL,
    engage_advice := ⟨Advice.UNKNOWN, ""⟩,
    signal := none,
    input_debug := ⟨none, none, none, none⟩ }

/-! ## Configuration and collaborators -/

/-- The fields of `mpc_controller_conf_` read by this file. -/
structure MPCControllerConf where
  enable_persistent_estop : Bool
  soft_estop_brake : ℚ
  minimum_speed_resolution : ℚ
  max_acceleration_when_stopped : ℚ
  enable_input_timestamp_check : Bool
  is_control_test_mode : Bool
  max_localization_miss_num : Int
  localization_period : ℚ
  max_chassis_miss_num : Int
  chassis_period : ℚ
  max_planning_miss_num : Int
  trajectory_period : ℚ
  action : DrivingAction
deriving DecidableEq, Repr

/-- The external controller `mpc_controller_`, with internal state of type `σ`.
`ComputeControlCommand` receives the three inputs by const pointer and the command by
mutable pointer; it returns its new state, a status and the command as it left it. -/
structure MPCController (σ : Type) where
  Reset : σ → σ
  ComputeControlCommand :
    σ → LocalizationEstimate → Chassis → ADCTrajectory → ControlCommand →
      σ × Status × ControlCommand

/-- Everything `ProduceControlCommand` reads that is fixed after `Init`. -/
structure Env (σ : Type) where
  mpc_controller_conf_ : MPCControllerConf
  FLAGS_enable_gear_dirve_negative_speed_protection : Bool
  mpc_controller : MPCController σ
  ShortDebugString : Header → String

/-- One call made to the external controller, with the arguments it received. -/
inductive ControllerCall where
  | Reset
  | ComputeControlCommand (localization : LocalizationEstimate) (chassis : Chassis)
      (trajectory : ADCTrajectory) (cmd : ControlCommand)
deriving DecidableEq, Repr

/-! ## The submodule -/

/-- The member variables of `MPCControllerSubmodule`. -/
structure MPCControllerSubmodule (σ : Type) where
  mpc_controller_ : σ
  local_view_ : LocalView
  latest_chassis_ : Chassis
  latest_trajectory_ : ADCTrajectory
  latest_localization_ : LocalizationEstimate
  latest_replan_trajectory_header_ : Header
  estop_ : Bool
  estop_reason_ : String
  pad_msg_ : PadMessage
  pad_received_ : Bool

/-- The variables of one `ProduceControlCommand` invocation: the object, the local
`status`, the command behind the `control_command` pointer, the local `status_compute`
(`none` while the controller has not been asked), and the effects on the collaborators
during this cycle (updates sent to `VehicleStateProvider`, calls made to the controller,
both in order). -/
structure Cycle (σ : Type) where
  self : MPCControllerSubmodule σ
  status : Status
  control_command : ControlCommand
  status_compute : Option Status
  vehicle_state_updates : List (LocalizationEstimate × Chassis)
  controller_calls : List ControllerCall

/-- Body of the loop of `CheckInput` (lines 321-327). -/
def normalizePoint (conf : MPCControllerConf) (p : TrajectoryPoint) : TrajectoryPoint :=
  if |p.v| < conf.minimum_speed_resolution ∧ |p.a| < conf.max_acceleration_when_stopped then
    { p with v := 0, a := 0 }
  else p

/-- First line of the message built by `CheckInput` (line 314). -/
def kNoTrajectoryPointMsg : String := "planning has no trajectory point. planning_seq_num:"

/-- Function `MPCControllerSubmodule::CheckInput` (lines 306-334). Returns the status, the local
view as the function left it, and the updates it sent to `VehicleStateProvider`. -/
def CheckInput (conf : MPCControllerConf) (local_view : LocalView) :
    Status × LocalView × List (LocalizationEstimate × Chassis) :=
  if local_view.trajectory.estop.is_estop = false ∧
      local_view.trajectory.trajectory_point.isEmpty = true then
    (⟨ErrorCode.CONTROL_COMPUTE_ERROR,
      kNoTrajectoryPointMsg ++ toString local_view.trajectory.header.get_sequence_num⟩,
     local_view, [])
  else
    (Status.OK,
     { local_view with
        trajectory := { local_view.trajectory with
          trajectory_point := local_view.trajectory.trajectory_point.map (normalizePoint conf) } },
     [(local_view.localization, local_view.chassis)])

/-- Function `MPCControllerSubmodule::CheckTimestamp` (lines 336-373); `now` is the value of
`Clock::NowInSeconds()`. -/
def CheckTimestamp (conf : MPCControllerConf) (now : ℚ) (local_view : LocalView) : Status :=
  if conf.enable_input_timestamp_check = false ∨ conf.is_control_test_mode = true then
    Status.OK
  else
    let current_timestamp := now
    let localization_diff := current_timestamp - local_view.localization.header.timestamp_sec
    if localization_diff > (conf.max_localization_miss_num : ℚ) * conf.localization_period then
      ⟨ErrorCode.CONTROL_COMPUTE_ERROR, "Localization msg timeout"⟩
    else
      let chassis_diff := current_timestamp - local_view.chassis.header.timestamp_sec
      if chassis_diff > (conf.max_chassis_miss_num : ℚ) * conf.chassis_period then
        ⟨ErrorCode.CONTROL_COMPUTE_ERROR, "Chassis msg timeout"⟩
      else
        let trajectory_diff := current_timestamp - local_view.trajectory.header.timestamp_sec
        if trajectory_diff > (conf.max_planning_miss_num : ℚ) * conf.trajectory_period then
          ⟨ErrorCode.CONTROL_COMPUTE_ERROR, "Trajectory msg timeout"⟩
        else
          Status.OK

/-! ## One control cycle -/

/-- The snapshot of a cycle: the latest chassis, trajectory and localization messages. -/
def MPCControllerSubmodule.snapshot {σ : Type} (self : MPCControllerSubmodule σ) : LocalView :=
  { chassis := self.latest_chassis_,
    trajectory := self.latest_trajectory_,
    localization := self.latest_localization_ }

/-- Lines 136-141 of `ProduceControlCommand`: the latest messages are copied into
`local_view_`. -/
def takeSnapshot {σ : Type} (self : MPCControllerSubmodule σ) : MPCControllerSubmodule σ :=
  { self with local_view_ := self.snapshot }

/-- Lines 143-172 of `ProduceControlCommand`: `CheckInput`, then `CheckTimestamp`, and the
engage advice that follows from them. `self` is the object after `takeSnapshot`. -/
def checkData {σ : Type} (env : Env σ) (now : ℚ) (self : MPCControllerSubmodule σ)
    (control_command : ControlCommand) : Cycle σ :=
  let checked := CheckInput env.mpc_controller_conf_ self.local_view_
  let status := checked.1
  let self := { self with local_view_ := checked.2.1 }
  if status.ok = false then
    { self := { self with estop_ := true, estop_reason_ := status.error_message },
      status := status,
      control_command :=
        { control_command with
          engage_advice := ⟨Advice.DISALLOW_ENGAGE, status.error_message⟩ },
      status_compute := none,
      vehicle_state_updates := checked.2.2,
      controller_calls := [] }
  else
    let status_ts := CheckTimestamp env.mpc_controller_conf_ now self.local_view_
    if status_ts.ok = false then
      { self := self,
        status := status_ts,
        control_command :=
          if self.local_view_.chassis.driving_mode ≠ DrivingMode.COMPLETE_AUTO_DRIVE then
            { control_command with
              engage_advice := ⟨Advice.DISALLOW_ENGAGE, status_ts.error_message⟩ }
          else control_command,
        status_compute := none,
        vehicle_state_updates := checked.2.2,
        controller_calls := [] }
    else
      { self := self,
        status := status,
        control_command :=
          { control_command with
            engage_advice :=
              { control_command.engage_advice with advice := Advice.READY_TO_ENGAGE } },
        status_compute := none,
        vehicle_state_updates := checked.2.2,
        controller_calls := [] }

/-- The constant `kEpsilon` of line 193. -/
def kEpsilon : ℚ := 1 / 1000

/-- Lines 174-200 of `ProduceControlCommand` ("check estop"): the persistence
carry-forward, the planning estop, the empty trajectory and the negative-speed protection.
The protection reads `trajectory_point(0)` without a size check; when the list is empty
that read is out of range and the cycle has no result. These lines read and write the
object only. -/
def checkEstop {σ : Type} (env : Env σ) (self : MPCControllerSubmodule σ) :
    Option (MPCControllerSubmodule σ) :=
  let local_view := self.local_view_
  let self1 : MPCControllerSubmodule σ :=
    { self with
      estop_ :=
        if env.mpc_controller_conf_.enable_persistent_estop = true then
          self.estop_ || local_view.trajectory.estop.is_estop
        else local_view.trajectory.estop.is_estop }
  let self2 : MPCControllerSubmodule σ :=
    if local_view.trajectory.estop.is_estop = true then
      { self1 with
        estop_ := true,
        estop_reason_ := "estop from planning : " ++ local_view.trajectory.estop.reason }
    else self1
  let self3 : MPCControllerSubmodule σ :=
    if local_view.trajectory.trajectory_point.isEmpty = true then
      { self2 with
        estop_ := true,
        estop_reason_ :=
          "estop for empty planning trajectory, planning headers: " ++
            env.ShortDebugString local_view.trajectory.header }
    else self2
  if env.FLAGS_enable_gear_dirve_negative_speed_protection = true then
    match local_view.trajectory.trajectory_point[0]? with
    | none => none
    | some first_trajectory_point =>
      if local_view.chassis.gear_location = GearPosition.GEAR_DRIVE ∧
          first_trajectory_point.v < -1 * kEpsilon then
        some { self3 with
          estop_ := true,
          estop_reason_ := "estop for negative speed when gear_drive" }
      else some self3
  else some self3

/-- Lines 174-190 of `ProduceControlCommand`: the object after the persistence
carry-forward, the planning estop and the empty-trajectory rule, before the negative-speed
protection of lines 192-200 is looked at. -/
def planningEstop {σ : Type} (env : Env σ) (self : MPCControllerSubmodule σ) :
    MPCControllerSubmodule σ :=
  let local_view := self.local_view_
  let self1 : MPCControllerSubmodule σ :=
    { self with
      estop_ :=
        if env.mpc_controller_conf_.enable_persistent_estop = true then
          self.estop_ || local_view.trajectory.estop.is_estop
        else local_view.trajectory.estop.is_estop }
  let self2 : MPCControllerSubmodule σ :=
    if local_view.trajectory.estop.is_estop = true then
      { self1 with
        estop_ := true,
        estop_reason_ := "estop from planning : " ++ local_view.trajectory.estop.reason }
    else self1
  if local_view.trajectory.trajectory_point.isEmpty = true then
    { self2 with
      estop_ := true,
      estop_reason_ :=
        "estop for empty planning trajectory, planning headers: " ++
          env.ShortDebugString local_view.trajectory.header }
  else self2

/-- Lines 203-206 of `ProduceControlCommand`: in manual driving mode the controller is
reset. Returns the controller state and the calls made so far. -/
def resetInManual {σ : Type} (env : Env σ) (c : Cycle σ) : σ × List ControllerCall :=
  if c.self.local_view_.chassis.driving_mode = DrivingMode.COMPLETE_MANUAL then
    (env.mpc_controller.Reset c.self.mpc_controller_,
      c.controller_calls ++ [ControllerCall.Reset])
  else (c.self.mpc_controller_, c.controller_calls)

/-- Lines 215-218 of `ProduceControlCommand`: the retained replan header, overwritten by
the header of a trajectory that has `is_replan` set. -/
def replanHeader {σ : Type} (c : Cycle σ) : Header :=
  if c.self.local_view_.trajectory.is_replan = true then c.self.local_view_.trajectory.header
  else c.self.latest_replan_trajectory_header_

/-- Lines 208-223 of `ProduceControlCommand`: the command with the debug headers attached,
as it is handed to the controller. -/
def attachDebug {σ : Type} (c : Cycle σ) : ControlCommand :=
  let debug1 : InputDebug :=
    { c.control_command.input_debug with
      localization_header := some c.self.local_view_.localization.header,
      canbus_header := some c.self.local_view_.chassis.header,
      trajectory_header := some c.self.local_view_.trajectory.header }
  let debug2 : InputDebug :=
    if (replanHeader c).has_sequence_num = true then
      { debug1 with latest_replan_trajectory_header := some (replanHeader c) }
    else debug1
  { c.control_command with input_debug := debug2 }

/-- Lines 225-227 of `ProduceControlCommand`: the call of
`mpc_controller_.ComputeControlCommand` on the local view. -/
def delegate {σ : Type} (env : Env σ) (c : Cycle σ) : σ × Status × ControlCommand :=
  env.mpc_controller.ComputeControlCommand (resetInManual env c).1
    c.self.local_view_.localization c.self.local_view_.chassis c.self.local_view_.trajectory
    (attachDebug c)

/-- Lines 202-242 of `ProduceControlCommand`: when not stopped, reset the controller in
manual mode, attach the debug headers, retain the replan header and delegate to the
controller; a failed computation sets the estop. -/
def runController {σ : Type} (env : Env σ) (c : Cycle σ) : Cycle σ :=
  if c.self.estop_ = false then
    let computed := delegate env c
    let status_compute := computed.2.1
    let calls : List ControllerCall :=
      (resetInManual env c).2 ++
        [ControllerCall.ComputeControlCommand c.self.local_view_.localization
          c.self.local_view_.chassis c.self.local_view_.trajectory (attachDebug c)]
    let self1 : MPCControllerSubmodule σ :=
      { c.self with
        mpc_controller_ := computed.1,
        latest_replan_trajectory_header_ := replanHeader c }
    if status_compute.ok = false then
      { c with
        self := { self1 with estop_ := true, estop_reason_ := status_compute.error_message },
        status := status_compute,
        control_command := computed.2.2,
        status_compute := some status_compute,
        controller_calls := calls }
    else
      { c with
        self := self1,
        control_command := computed.2.2,
        status_compute := some status_compute,
        controller_calls := calls }
  else c

/-- Lines 244-252 of `ProduceControlCommand`: the estop command. -/
def setEstopCommand {σ : Type} (env : Env σ) (c : Cycle σ) : Cycle σ :=
  if c.self.estop_ = true then
    { c with
      control_command :=
        { c.control_command with
          speed := 0,
          throttle := 0,
          brake := env.mpc_controller_conf_.soft_estop_brake,
          gear_location := GearPosition.GEAR_DRIVE } }
  else c

/-- Lines 253-257 of `ProduceControlCommand`: the vehicle signal of the planning decision
is copied onto the command. -/
def checkSignal {σ : Type} (c : Cycle σ) : Cycle σ :=
  match c.self.local_view_.trajectory.decision.vehicle_signal with
  | some vehicle_signal =>
    { c with control_command := { c.control_command with signal := some vehicle_signal } }
  | none => c

/-- Function `MPCControllerSubmodule::ProduceControlCommand` (lines 132-259). `now` is the value
`Clock::NowInSeconds()` returns inside `CheckTimestamp`, `control_command` the command the
pointer argument refers to on entry. The result holds the object after the cycle, the
returned status and the command as the function left it; it is `none` when the cycle
performs the out-of-range read of `checkEstop`. -/
def ProduceControlCommand {σ : Type} (env : Env σ) (now : ℚ) (self : MPCControllerSubmodule σ)
    (control_command : ControlCommand) : Option (Cycle σ) :=
  let checked := checkData env now (takeSnapshot self) control_command
  (checkEstop env checked.self).map
    (fun stopped =>
      checkSignal (setEstopCommand env (runController env { checked with self := stopped })))

/-- What one `Proc` invocation leaves behind: the object, the value `Proc` returns, the
commands written to `control_command_writer_` (in order) and the cycle it ran, if any. -/
structure ProcResult (σ : Type) where
  self : MPCControllerSubmodule σ
  returned : Bool
  written : List ControlCommand
  cycle : Option (Cycle σ)

/-! ## Callbacks -/

/-- Function `MPCControllerSubmodule::OnChassis` (lines 261-266). -/
def OnChassis {σ : Type} (self : MPCControllerSubmodule σ) (chassis : Chassis) :
    MPCControllerSubmodule σ :=
  { self with latest_chassis_ := chassis }

/-- Function `MPCControllerSubmodule::OnPad` (lines 268-280). -/
def OnPad {σ : Type} (self : MPCControllerSubmodule σ) (pad : PadMessage) :
    MPCControllerSubmodule σ :=
  let self1 := { self with pad_msg_ := pad }
  let self2 :=
    if self1.pad_msg_.get_action = DrivingAction.RESET then
      { self1 with estop_ := false, estop_reason_ := "" }
    else self1
  { self2 with pad_received_ := true }

/-- Function `MPCControllerSubmodule::OnPlanning` (lines 282-287). -/
def OnPlanning {σ : Type} (self : MPCControllerSubmodule σ) (trajectory : ADCTrajectory) :
    MPCControllerSubmodule σ :=
  { self with latest_trajectory_ := trajectory }

/-- Function `MPCControllerSubmodule::OnLocalization` (lines 289-294). -/
def OnLocalization {σ : Type} (self : MPCControllerSubmodule σ)
    (localization : LocalizationEstimate) : MPCControllerSubmodule σ :=
  { self with latest_localization_ := localization }

/-- The loop of `OnMonitor` (lines 298-303) over the remaining items. -/
def OnMonitor.loop {σ : Type} (self : MPCControllerSubmodule σ) :
    List MonitorMessageItem → MPCControllerSubmodule σ
  | [] => self
  | item :: rest =>
    if item.log_level = LogLevel.FATAL then { self with estop_ := true }
    else OnMonitor.loop self rest

/-- Function `MPCControllerSubmodule::OnMonitor` (lines 296-304). -/
def OnMonitor {σ : Type} (self : MPCControllerSubmodule σ) (monitor_message : MonitorMessage) :
    MPCControllerSubmodule σ :=
  OnMonitor.loop self monitor_message.item

/-- Function `MPCControllerSubmodule::Proc` (lines 110-130). `chassis_msg` is the result of
`chassis_reader_->GetLatestObserved()`, `none` for the null pointer. The result is `none`
when the cycle it runs has no result. -/
def Proc {σ : Type} (env : Env σ) (now : ℚ) (self : MPCControllerSubmodule σ)
    (chassis_msg : Option Chassis) : Option (ProcResult σ) :=
  match chassis_msg with
  | none => some { self := self, returned := false, written := [], cycle := none }
  | some chassis =>
    (ProduceControlCommand env now (OnChassis self chassis) ControlCommand.empty).map
      (fun c =>
        { self := c.self, returned := true, written := [c.control_command], cycle := some c })

/-! ## Sequences of cycles and callbacks -/

/-- What can happen to the submodule: a `ProduceControlCommand` cycle (at a clock value,
on a command) or the delivery of one message to a callback. -/
inductive Event where
  | cycle (now : ℚ) (control_command : ControlCommand)
  | pad (pad : PadMessage)
  | monitor (monitor_message : MonitorMessage)
  | chassis (chassis : Chassis)
  | planning (trajectory : ADCTrajectory)
  | localization (localization : LocalizationEstimate)
deriving DecidableEq, Repr

/-- The event is a pad message with action `RESET`. -/
def Event.isReset : Event → Bool
  | Event.pad msg => decide (msg.get_action = DrivingAction.RESET)
  | _ => false

/-- The event is a monitor message with an item of level `FATAL`. -/
def Event.isFatal : Event → Bool
  | Event.monitor msg =>
    msg.item.any (fun item => decide (item.log_level = LogLevel.FATAL))
  | _ => false

/-- The object after one event; `none` when the event is a cycle without a result. -/
def step {σ : Type} (env : Env σ) (self : MPCControllerSubmodule σ) :
    Event → Option (MPCControllerSubmodule σ)
  | Event.cycle now control_command =>
    (ProduceControlCommand env now self control_command).map (fun c => c.self)
  | Event.pad pad => some (OnPad self pad)
  | Event.monitor monitor_message => some (OnMonitor self monitor_message)
  | Event.chassis chassis => some (OnChassis self chassis)
  | Event.planning trajectory => some (OnPlanning self trajectory)
  | Event.localization localization => some (OnLocalization self localization)

/-- The object after a sequence of events, each applied to the result of the one before. -/
def run {σ : Type} (env : Env σ) (self : MPCControllerSubmodule σ) :
    List Event → Option (MPCControllerSubmodule σ)
  | [] => some self
  | e :: es => (step env self e).bind (fun s => run env s es)

/-- The command of the estop path (lines 248-251): zero speed, zero throttle, the
configured soft-estop brake, gear `GEAR_DRIVE`. -/
def IsEstopCommand (conf : MPCControllerConf) (cmd : ControlCommand) : Prop :=
  cmd.speed = 0 ∧ cmd.throttle = 0 ∧ cmd.brake = conf.soft_estop_brake ∧
    cmd.gear_location = GearPosition.GEAR_DRIVE

instance (conf : MPCControllerConf) (cmd : ControlCommand) :
    Decidable (IsEstopCommand conf cmd) := by
  unfold IsEstopCommand; infer_instance

/-- The estop record of the submodule: the flag `estop_` and the text `estop_reason_`. -/
def MPCControllerSubmodule.estopRecord {σ : Type} (self : MPCControllerSubmodule σ) :
    Bool × String :=
  (self.estop_, self.estop_reason_)

/-- The invariant the specification states for the estop record: the reason is not empty
whenever the flag is set. -/
def ReasonGiven {σ : Type} (self : MPCControllerSubmodule σ) : Prop :=
  self.estop_ = true → self.estop_reason_ ≠ ""

/-- The object with the text of the estop reason blanked: what is left to compare when two
runs may differ in `estop_reason_` only. -/
def MPCControllerSubmodule.withoutReason {σ : Type} (self : MPCControllerSubmodule σ) :
    MPCControllerSubmodule σ :=
  { self with estop_reason_ := "" }

/-- The outcome of a cycle with the text of the estop reason blanked: the estop flag, the
rest of the object, the status, the command and the effects on the collaborators stay. -/
def Cycle.withoutReason {σ : Type} (c : Cycle σ) : Cycle σ :=
  { c with self := c.self.withoutReason }

/-! ## Concrete inputs -/

/-- A controller that counts its computations and always succeeds. -/
def countingController : MPCController Nat :=
  { Reset := fun _ => 0,
    ComputeControlCommand := fun n _ _ _ cmd =>
      (n + 1, Status.OK, { cmd with speed := 5, throttle := 1 / 2, steering_target := 1 / 10 }) }

/-- A controller whose computation fails without an error message, after writing a
throttle value into the command. -/
def silentFailingController : MPCController Nat :=
  { Reset := fun _ => 0,
    ComputeControlCommand := fun n _ _ _ cmd =>
      (n + 1, ⟨ErrorCode.CONTROL_COMPUTE_ERROR, ""⟩, { cmd with throttle := 1 / 2 }) }

/-- A debug string for headers, standing for `ShortDebugString` in the examples. -/
def seqDebugString (h : Header) : String :=
  "sequence_num: " ++ toString h.get_sequence_num

/-- A configuration with persistent estop and the timestamp check enabled: every stream
may be up to 20 periods of 1/100 s old. -/
def sampleConf : MPCControllerConf :=
  { enable_persistent_estop := true,
    soft_estop_brake := 50,
    minimum_speed_resolution := 1 / 5,
    max_acceleration_when_stopped := 1 / 100,
    enable_input_timestamp_check := true,
    is_control_test_mode := false,
    max_localization_miss_num := 20,
    localization_period := 1 / 100,
    max_chassis_miss_num := 20,
    chassis_period := 1 / 100,
    max_planning_miss_num := 20,
    trajectory_period := 1 / 100,
    action := DrivingAction.STOP }

/-- Persistent estop, negative-speed protection off. -/
def sampleEnv : Env Nat :=
  { mpc_controller_conf_ := sampleConf,
    FLAGS_enable_gear_dirve_negative_speed_protection := false,
    mpc_controller := countingController,
    ShortDebugString := seqDebugString }

/-- Persistent estop, negative-speed protection on. -/
def protectedEnv : Env Nat :=
  { sampleEnv with FLAGS_enable_gear_dirve_negative_speed_protection := true }

/-- Estop recomputed every cycle, negative-speed protection off. -/
def freshEnv : Env Nat :=
  { sampleEnv with
    mpc_controller_conf_ := { sampleConf with enable_persistent_estop := false } }

/-- Persistent estop, with the controller that fails silently. -/
def silentEnv : Env Nat :=
  { sampleEnv with mpc_controller := silentFailingController }

/-- A signal with the left indicator on. -/
def leftSignal : VehicleSignal :=
  { turn_signal := TurnSignal.TURN_LEFT, high_beam := false, low_beam := true,
    horn := false, emergency_light := false }

/-- A trajectory with two points, stamped at 10 s, asking for the left indicator. -/
def sampleTrajectory : ADCTrajectory :=
  { header := { timestamp_sec := 10, sequence_num := some 7 },
    trajectory_point := [⟨3, 1 / 2, 0⟩, ⟨4, 1 / 2, 1 / 10⟩],
    estop := ⟨false, ""⟩,
    is_replan := false,
    decision := ⟨some leftSignal⟩ }

/-- A trajectory without points and without the planning estop flag. -/
def emptyTrajectory : ADCTrajectory :=
  { header := { timestamp_sec := 10, sequence_num := some 8 },
    trajectory_point := [],
    estop := ⟨false, ""⟩,
    is_replan := false,
    decision := ⟨none⟩ }

/-- A chassis message stamped at 10 s: automatic driving, gear in drive. -/
def sampleChassis : Chassis :=
  { header := { timestamp_sec := 10, sequence_num := some 3 },
    driving_mode := DrivingMode.COMPLETE_AUTO_DRIVE,
    gear_location := GearPosition.GEAR_DRIVE }

/-- A chassis message stamped at 10 s: manual driving, gear in drive. -/
def manualChassis : Chassis :=
  { sampleChassis with driving_mode := DrivingMode.COMPLETE_MANUAL }

/-- A localization message stamped at 10 s. -/
def sampleLocalization : LocalizationEstimate :=
  { header := { timestamp_sec := 10, sequence_num := some 5 } }

/-- A snapshot of the three sample messages. -/
def sampleView : LocalView :=
  { chassis := sampleChassis, trajectory := sampleTrajectory,
    localization := sampleLocalization }

/-- The submodule as constructed: no estop, empty reason, default messages. -/
def initialSubmodule : MPCControllerSubmodule Nat :=
  { mpc_controller_ := 0,
    local_view_ :=
      { chassis := ⟨Header.empty, DrivingMode.COMPLETE_MANUAL, GearPosition.GEAR_NEUTRAL⟩,
        trajectory := ⟨Header.empty, [], ⟨false, ""⟩, false, ⟨none⟩⟩,
        localization := ⟨Header.empty⟩ },
    latest_chassis_ := ⟨Header.empty, DrivingMode.COMPLETE_MANUAL, GearPosition.GEAR_NEUTRAL⟩,
    latest_trajectory_ := ⟨Header.empty, [], ⟨false, ""⟩, false, ⟨none⟩⟩,
    latest_localization_ := ⟨Header.empty⟩,
    latest_replan_trajectory_header_ := Header.empty,
    estop_ := false,
    estop_reason_ := "",
    pad_msg_ := ⟨some DrivingAction.STOP⟩,
    pad_received_ := false }

/-- The submodule after the three sample messages have arrived. -/
def readySubmodule : MPCControllerSubmodule Nat :=
  OnLocalization (OnPlanning (OnChassis initialSubmodule sampleChassis) sampleTrajectory)
    sampleLocalization

/-- The ready submodule with the estop latched. -/
def stoppedSubmodule : MPCControllerSubmodule Nat :=
  { readySubmodule with estop_ := true, estop_reason_ := "estop from planning : test" }

/-- The ready submodule whose latest trajectory has no points. -/
def starvedSubmodule : MPCControllerSubmodule Nat :=
  OnPlanning readySubmodule emptyTrajectory

/-- The submodule with the estop latched whose latest trajectory has no points. -/
def stoppedStarvedSubmodule : MPCControllerSubmodule Nat :=
  OnPlanning stoppedSubmodule emptyTrajectory

/-- The ready submodule with the chassis in manual driving mode. -/
def manualSubmodule : MPCControllerSubmodule Nat :=
  OnChassis readySubmodule manualChassis

/-- A monitor message with one fatal item after an informational one. -/
def fatalMessage : MonitorMessage :=
  { item := [⟨LogLevel.INFO⟩, ⟨LogLevel.FATAL⟩] }

/-- A controller whose computation fails with a message, after writing a throttle value
into the command. -/
def failingController : MPCController Nat :=
  { Reset := fun _ => 0,
    ComputeControlCommand := fun n _ _ _ cmd =>
      (n + 1, ⟨ErrorCode.other 7, "mpc solver failed"⟩, { cmd with throttle := 1 / 2 }) }

/-- Persistent estop, with the controller that fails with a message. -/
def failingEnv : Env Nat :=
  { sampleEnv with mpc_controller := failingController }

/-- Estop recomputed every cycle, negative-speed protection on. -/
def freshProtectedEnv : Env Nat :=
  { freshEnv with FLAGS_enable_gear_dirve_negative_speed_protection := true }

/-- A trajectory whose first point creeps (velocity 1/10, acceleration 1/200) and whose
second point moves. -/
def creepingTrajectory : ADCTrajectory :=
  { sampleTrajectory with trajectory_point := [⟨1 / 10, 1 / 200, 3⟩, ⟨3, 1 / 2, 4⟩] }

/-- A trajectory whose first point has velocity -1/2. -/
def reversingTrajectory : ADCTrajectory :=
  { sampleTrajectory with trajectory_point := [⟨-1 / 2, 0, 0⟩, ⟨4, 1 / 2, 1 / 10⟩] }

/-- A replanned trajectory on which planning asks for an estop, with reason "obstacle". -/
def planningEstopTrajectory : ADCTrajectory :=
  { sampleTrajectory with estop := ⟨true, "obstacle"⟩, is_replan := true }

/-- A replanned trajectory without estop. -/
def replanTrajectory : ADCTrajectory :=
  { sampleTrajectory with is_replan := true }

/-- The ready submodule whose latest trajectory reverses. -/
def reversingSubmodule : MPCControllerSubmodule Nat :=
  OnPlanning readySubmodule reversingTrajectory

/-- The ready submodule whose latest trajectory carries the planning estop. -/
def planningEstopSubmodule : MPCControllerSubmodule Nat :=
  OnPlanning readySubmodule planningEstopTrajectory

/-- The manual-mode submodule whose latest trajectory is a replan. -/
def replanSubmodule : MPCControllerSubmodule Nat :=
  OnPlanning manualSubmodule replanTrajectory

/-- Events after which, with the estop recomputed every cycle, the estop flag is clear and
the reason of the earlier planning estop is still stored: a cycle on a trajectory on
which planning asks for an estop, then a cycle on a trajectory on which it does not. -/
def staleReasonEvents : List Event :=
  [Event.chassis sampleChassis, Event.planning planningEstopTrajectory,
   Event.localization sampleLocalization, Event.cycle 10 ControlCommand.empty,
   Event.planning sampleTrajectory, Event.cycle 10 ControlCommand.empty]

/-- The ready submodule with the estop flag clear and the reason of an earlier estop
still stored. -/
def staleReasonSubmodule : MPCControllerSubmodule Nat :=
  { readySubmodule with estop_reason_ := "estop from planning : obstacle" }

/-! ## Basic facts about the stages -/

theorem Status.ok_OK : Status.OK.ok = true := rfl

theorem Status.ok_compute_error (m : String) :
    (Status.mk ErrorCode.CONTROL_COMPUTE_ERROR m).ok = false := rfl

theorem checkSignal_self {σ : Type} (c : Cycle σ) : (checkSignal c).self = c.self := by
  unfold checkSignal
  split <;> rfl

theorem checkSignal_status {σ : Type} (c : Cycle σ) : (checkSignal c).status = c.status := by
  unfold checkSignal
  split <;> rfl

theorem checkSignal_status_compute {σ : Type} (c : Cycle σ) :
    (checkSignal c).status_compute = c.status_compute := by
  unfold checkSignal
  split <;> rfl

theorem checkSignal_estopCommand {σ : Type} (conf : MPCControllerConf) (c : Cycle σ)
    (h : IsEstopCommand conf c.control_command) :
    IsEstopCommand conf (checkSignal c).control_command := by
  unfold checkSignal
  split
  · exact h
  · exact h

theorem checkSignal_engage_advice {σ : Type} (c : Cycle σ) :
    (checkSignal c).control_command.engage_advice = c.control_command.engage_advice := by
  unfold checkSignal
  split <;> rfl

theorem setEstopCommand_self {σ : Type} (env : Env σ) (c : Cycle σ) :
    (setEstopCommand env c).self = c.self := by
  unfold setEstopCommand
  split <;> rfl

theorem setEstopCommand_status {σ : Type} (env : Env σ) (c : Cycle σ) :
    (setEstopCommand env c).status = c.status := by
  unfold setEstopCommand
  split <;> rfl

theorem setEstopCommand_status_compute {σ : Type} (env : Env σ) (c : Cycle σ) :
    (setEstopCommand env c).status_compute = c.status_compute := by
  unfold setEstopCommand
  split <;> rfl

theorem setEstopCommand_engage_advice {σ : Type} (env : Env σ) (c : Cycle σ) :
    (setEstopCommand env c).control_command.engage_advice = c.control_command.engage_advice := by
  unfold setEstopCommand
  split <;> rfl

theorem setEstopCommand_of_estop {σ : Type} (env : Env σ) (c : Cycle σ)
    (h : c.self.estop_ = true) :
    IsEstopCommand env.mpc_controller_conf_ (setEstopCommand env c).control_command := by
  unfold setEstopCommand
  rw [if_pos h]
  exact ⟨rfl, rfl, rfl, rfl⟩

theorem runController_of_estop {σ : Type} (env : Env σ) (c : Cycle σ)
    (h : c.self.estop_ = true) : runController env c = c := by
  unfold runController
  rw [if_neg (by simp [h])]

theorem runController_estop_mono {σ : Type} (env : Env σ) (c : Cycle σ)
    (h : c.self.estop_ = true) : (runController env c).self.estop_ = true := by
  rw [runController_of_estop env c h]; exact h

theorem CheckInput_points_isEmpty (conf : MPCControllerConf) (local_view : LocalView) :
    (CheckInput conf local_view).2.1.trajectory.trajectory_point.isEmpty =
      local_view.trajectory.trajectory_point.isEmpty := by
  unfold CheckInput
  split
  · rfl
  · dsimp only
    generalize local_view.trajectory.trajectory_point = l
    cases l <;> rfl

theorem CheckInput_estop (conf : MPCControllerConf) (local_view : LocalView) :
    (CheckInput conf local_view).2.1.trajectory.estop = local_view.trajectory.estop := by
  unfold CheckInput
  split <;> rfl

theorem CheckInput_header (conf : MPCControllerConf) (local_view : LocalView) :
    (CheckInput conf local_view).2.1.trajectory.header = local_view.trajectory.header := by
  unfold CheckInput
  split <;> rfl

theorem CheckInput_chassis (conf : MPCControllerConf) (local_view : LocalView) :
    (CheckInput conf local_view).2.1.chassis = local_view.chassis := by
  unfold CheckInput
  split <;> rfl

theorem CheckInput_localization (conf : MPCControllerConf) (local_view : LocalView) :
    (CheckInput conf local_view).2.1.localization = local_view.localization := by
  unfold CheckInput
  split <;> rfl

theorem checkData_local_view {σ : Type} (env : Env σ) (now : ℚ)
    (self : MPCControllerSubmodule σ) (cmd : ControlCommand) :
    (checkData env now self cmd).self.local_view_ =
      (CheckInput env.mpc_controller_conf_ self.local_view_).2.1 := by
  unfold checkData
  dsimp only
  split
  · rfl
  · split <;> rfl

theorem checkData_estop_mono {σ : Type} (env : Env σ) (now : ℚ)
    (self : MPCControllerSubmodule σ) (cmd : ControlCommand) (h : self.estop_ = true) :
    (checkData env now self cmd).self.estop_ = true := by
  unfold checkData
  dsimp only
  split
  · rfl
  · split <;> exact h

theorem CheckInput_points_eq_nil_iff (conf : MPCControllerConf) (local_view : LocalView) :
    (CheckInput conf local_view).2.1.trajectory.trajectory_point = [] ↔
      local_view.trajectory.trajectory_point = [] := by
  have h := CheckInput_points_isEmpty conf local_view
  rw [← List.isEmpty_iff, ← List.isEmpty_iff, h]

theorem checkEstop_eq_none_iff {σ : Type} (env : Env σ) (c : MPCControllerSubmodule σ) :
    checkEstop env c = none ↔
      env.FLAGS_enable_gear_dirve_negative_speed_protection = true ∧
        c.local_view_.trajectory.trajectory_point = [] := by
  unfold checkEstop
  dsimp only
  by_cases hf : env.FLAGS_enable_gear_dirve_negative_speed_protection = true
  · rw [if_pos hf]
    cases hp : c.local_view_.trajectory.trajectory_point with
    | nil => simp [hf]
    | cons p ps =>
      simp only [List.getElem?_cons_zero]
      split_ifs <;> simp
  · rw [if_neg hf]
    simp [hf]

/-- A cycle has no result exactly when the negative-speed protection is enabled and the
latest trajectory has no points. -/
theorem ProduceControlCommand_eq_none_iff {σ : Type} (env : Env σ) (now : ℚ)
    (self : MPCControllerSubmodule σ) (cmd : ControlCommand) :
    ProduceControlCommand env now self cmd = none ↔
      env.FLAGS_enable_gear_dirve_negative_speed_protection = true ∧
        self.latest_trajectory_.trajectory_point = [] := by
  unfold ProduceControlCommand
  dsimp only
  rw [Option.map_eq_none', checkEstop_eq_none_iff, checkData_local_view,
    CheckInput_points_eq_nil_iff]
  rfl

/-- A cycle returns whenever the protection is disabled or the trajectory has a point. -/
theorem ProduceControlCommand_returns {σ : Type} (env : Env σ) (now : ℚ)
    (self : MPCControllerSubmodule σ) (cmd : ControlCommand)
    (h : env.FLAGS_enable_gear_dirve_negative_speed_protection = false ∨
      self.latest_trajectory_.trajectory_point ≠ []) :
    ∃ r, ProduceControlCommand env now self cmd = some r := by
  cases hr : ProduceControlCommand env now self cmd with
  | some r => exact ⟨r, rfl⟩
  | none =>
    rw [ProduceControlCommand_eq_none_iff] at hr
    rcases h with h | h
    · rw [h] at hr; exact absurd hr.1 (by simp)
    · exact absurd hr.2 h

theorem ProduceControlCommand_eq_some {σ : Type} (env : Env σ) (now : ℚ)
    (self : MPCControllerSubmodule σ) (cmd : ControlCommand) (r : Cycle σ)
    (h : ProduceControlCommand env now self cmd = some r) :
    ∃ c, checkEstop env (checkData env now (takeSnapshot self) cmd).self = some c ∧
      r = checkSignal (setEstopCommand env (runController env
        { checkData env now (takeSnapshot self) cmd with self := c })) := by
  unfold ProduceControlCommand at h
  dsimp only at h
  rw [Option.map_eq_some'] at h
  obtain ⟨c, hc, hr⟩ := h
  exact ⟨c, hc, hr.symm⟩

theorem checkEstop_estop_of_persistent {σ : Type} (env : Env σ)
    (c d : MPCControllerSubmodule σ)
    (hp : env.mpc_controller_conf_.enable_persistent_estop = true)
    (he : c.estop_ = true) (h : checkEstop env c = some d) : d.estop_ = true := by
  unfold checkEstop at h
  dsimp only at h
  rw [if_pos hp, he] at h
  split at h
  · split at h
    · exact absurd h (by simp)
    · split at h <;>
        (cases h
         try (split <;> split <;> rfl))
  · cases h
    split <;> split <;> rfl

/-- Persistent estop is kept by a cycle: a cycle that starts with `estop_` set and returns
ends with `estop_` set and returns the estop command. -/
theorem ProduceControlCommand_latch {σ : Type} (env : Env σ) (now : ℚ)
    (self : MPCControllerSubmodule σ) (cmd : ControlCommand) (r : Cycle σ)
    (hp : env.mpc_controller_conf_.enable_persistent_estop = true)
    (he : self.estop_ = true) (h : ProduceControlCommand env now self cmd = some r) :
    r.self.estop_ = true ∧ IsEstopCommand env.mpc_controller_conf_ r.control_command := by
  obtain ⟨c, hc, rfl⟩ := ProduceControlCommand_eq_some env now self cmd r h
  have h1 : (checkData env now (takeSnapshot self) cmd).self.estop_ = true :=
    checkData_estop_mono env now _ cmd he
  have h2 : c.estop_ = true := checkEstop_estop_of_persistent env _ c hp h1 hc
  have h3 : (runController env
      { checkData env now (takeSnapshot self) cmd with self := c }).self.estop_ = true :=
    runController_estop_mono env _ h2
  refine ⟨?_, ?_⟩
  · rw [checkSignal_self, setEstopCommand_self]; exact h3
  · exact checkSignal_estopCommand _ _ (setEstopCommand_of_estop env _ h3)

/-! ### Sequences of events -/

theorem takeSnapshot_estop {σ : Type} (self : MPCControllerSubmodule σ) :
    (takeSnapshot self).estop_ = self.estop_ ∧
      (takeSnapshot self).estop_reason_ = self.estop_reason_ := ⟨rfl, rfl⟩

theorem OnMonitor_loop_reason {σ : Type} (self : MPCControllerSubmodule σ)
    (items : List MonitorMessageItem) :
    (OnMonitor.loop self items).estop_reason_ = self.estop_reason_ := by
  induction items with
  | nil => rfl
  | cons item rest ih =>
    unfold OnMonitor.loop
    split
    · rfl
    · exact ih

theorem OnMonitor_loop_estop_mono {σ : Type} (self : MPCControllerSubmodule σ)
    (items : List MonitorMessageItem) (h : self.estop_ = true) :
    (OnMonitor.loop self items).estop_ = true := by
  induction items with
  | nil => exact h
  | cons item rest ih =>
    unfold OnMonitor.loop
    split
    · rfl
    · exact ih

theorem OnMonitor_loop_fatal {σ : Type} (self : MPCControllerSubmodule σ)
    (items : List MonitorMessageItem)
    (h : ∃ item ∈ items, item.log_level = LogLevel.FATAL) :
    (OnMonitor.loop self items).estop_ = true := by
  induction items with
  | nil =>
    obtain ⟨item, hmem, _⟩ := h
    exact absurd hmem (List.not_mem_nil item)
  | cons item rest ih =>
    unfold OnMonitor.loop
    split
    · rfl
    · rename_i hne
      obtain ⟨x, hmem, hx⟩ := h
      rcases List.mem_cons.mp hmem with rfl | hrest
      · exact absurd hx hne
      · exact ih ⟨x, hrest, hx⟩

theorem OnMonitor_loop_no_fatal {σ : Type} (self : MPCControllerSubmodule σ)
    (items : List MonitorMessageItem)
    (h : items.any (fun item => decide (item.log_level = LogLevel.FATAL)) = false) :
    OnMonitor.loop self items = self := by
  induction items with
  | nil => rfl
  | cons item rest ih =>
    rw [List.any_cons, Bool.or_eq_false_iff] at h
    unfold OnMonitor.loop
    rw [if_neg (by simpa using h.1)]
    exact ih h.2

theorem OnPad_reset {σ : Type} (self : MPCControllerSubmodule σ) (pad : PadMessage)
    (h : pad.get_action = DrivingAction.RESET) :
    (OnPad self pad).estop_ = false ∧ (OnPad self pad).estop_reason_ = "" := by
  simp [OnPad, h]

theorem OnPad_no_reset {σ : Type} (self : MPCControllerSubmodule σ) (pad : PadMessage)
    (h : pad.get_action ≠ DrivingAction.RESET) :
    (OnPad self pad).estop_ = self.estop_ ∧
      (OnPad self pad).estop_reason_ = self.estop_reason_ := by
  simp [OnPad, h]

theorem step_cycle_eq_some {σ : Type} (env : Env σ) (self s : MPCControllerSubmodule σ)
    (now : ℚ) (cmd : ControlCommand) (h : step env self (Event.cycle now cmd) = some s) :
    ∃ r, ProduceControlCommand env now self cmd = some r ∧ r.self = s := by
  exact Option.map_eq_some'.mp h

theorem step_estop_mono {σ : Type} (env : Env σ) (self s : MPCControllerSubmodule σ)
    (e : Event) (hp : env.mpc_controller_conf_.enable_persistent_estop = true)
    (hr : e.isReset = false) (he : self.estop_ = true) (h : step env self e = some s) :
    s.estop_ = true := by
  cases e with
  | cycle now cmd =>
    obtain ⟨r, hr, rfl⟩ := step_cycle_eq_some env self s now cmd h
    exact (ProduceControlCommand_latch env now self cmd r hp he hr).1
  | pad msg =>
    have hne : msg.get_action ≠ DrivingAction.RESET := by
      simpa [Event.isReset] using hr
    cases h
    rw [(OnPad_no_reset self msg hne).1]
    exact he
  | monitor msg =>
    cases h
    exact OnMonitor_loop_estop_mono self msg.item he
  | chassis msg => cases h; exact he
  | planning msg => cases h; exact he
  | localization msg => cases h; exact he

theorem run_estop_mono {σ : Type} (env : Env σ) (evs : List Event)
    (hp : env.mpc_controller_conf_.enable_persistent_estop = true)
    (hr : ∀ e ∈ evs, e.isReset = false) :
    ∀ (self s : MPCControllerSubmodule σ), self.estop_ = true →
      run env self evs = some s → s.estop_ = true := by
  induction evs with
  | nil =>
    intro self s he h
    cases h
    exact he
  | cons e es ih =>
    intro self s he h
    change (step env self e).bind (fun s => run env s es) = some s at h
    rw [Option.bind_eq_some] at h
    obtain ⟨m, hm, hrest⟩ := h
    have hm2 : m.estop_ = true :=
      step_estop_mono env self m e hp (hr e (List.mem_cons_self e es)) he hm
    exact ih (fun x hx => hr x (List.mem_cons_of_mem e hx)) m s hm2 hrest

/-- With the protection disabled every sequence of events has a final object. -/
theorem run_returns {σ : Type} (env : Env σ) (evs : List Event)
    (hf : env.FLAGS_enable_gear_dirve_negative_speed_protection = false) :
    ∀ self : MPCControllerSubmodule σ, ∃ s, run env self evs = some s := by
  induction evs with
  | nil => intro self; exact ⟨self, rfl⟩
  | cons e es ih =>
    intro self
    have hstep : ∃ m, step env self e = some m := by
      cases e with
      | cycle now cmd =>
        obtain ⟨r, hr⟩ := ProduceControlCommand_returns env now self cmd (Or.inl hf)
        exact ⟨r.self, by
          show (ProduceControlCommand env now self cmd).map (fun c => c.self) = some r.self
          rw [hr]; rfl⟩
      | pad msg => exact ⟨_, rfl⟩
      | monitor msg => exact ⟨_, rfl⟩
      | chassis msg => exact ⟨_, rfl⟩
      | planning msg => exact ⟨_, rfl⟩
      | localization msg => exact ⟨_, rfl⟩
    obtain ⟨m, hm⟩ := hstep
    obtain ⟨s, hs⟩ := ih m
    exact ⟨s, by
      show (step env self e).bind (fun s => run env s es) = some s
      rw [hm]; exact hs⟩

/-- With the negative-speed protection disabled, a cycle on a trajectory without points
and without the planning estop flag returns the validation error, disallows engagement
with the validation message, sets the estop with the empty-trajectory reason, leaves the
controller alone and returns the estop command. -/
theorem empty_trajectory_cycle_unprotected {σ : Type} (env : Env σ) (now : ℚ)
    (self : MPCControllerSubmodule σ) (cmd : ControlCommand)
    (hf : env.FLAGS_enable_gear_dirve_negative_speed_protection = false)
    (hpts : self.latest_trajectory_.trajectory_point = [])
    (hne : self.latest_trajectory_.estop.is_estop = false) :
    ∃ r, ProduceControlCommand env now self cmd = some r ∧
      r.status = ⟨ErrorCode.CONTROL_COMPUTE_ERROR,
        "planning has no trajectory point. planning_seq_num:" ++
          toString self.latest_trajectory_.header.get_sequence_num⟩ ∧
      r.control_command.engage_advice = ⟨Advice.DISALLOW_ENGAGE, r.status.error_message⟩ ∧
      r.self.estop_ = true ∧
      r.self.estop_reason_ =
        "estop for empty planning trajectory, planning headers: " ++
          env.ShortDebugString self.latest_trajectory_.header ∧
      IsEstopCommand env.mpc_controller_conf_ r.control_command ∧
      r.controller_calls = [] := by
  obtain ⟨r, hr⟩ := ProduceControlCommand_returns env now self cmd (Or.inl hf)
  refine ⟨r, hr, ?_⟩
  simp [ProduceControlCommand, checkData, CheckInput, takeSnapshot,
    MPCControllerSubmodule.snapshot, hpts, hne, checkEstop, hf, Status.ok] at hr
  subst hr
  simp only [runController, setEstopCommand, checkSignal]
  split <;> simp [hpts, Status.error_message, IsEstopCommand, kNoTrajectoryPointMsg]

/-! ### The reason of the estop -/

theorem append_ne_empty (a b : String) (h : a.length ≠ 0) : a ++ b ≠ "" := by
  intro e
  have h2 := congrArg String.length e
  rw [String.length_append] at h2
  have h3 : "".length = 0 := rfl
  omega

theorem checkData_self {σ : Type} (env : Env σ) (now : ℚ)
    (self : MPCControllerSubmodule σ) (cmd : ControlCommand) :
    (checkData env now self cmd).self =
      if (CheckInput env.mpc_controller_conf_ self.local_view_).1.ok = false then
        { self with
          local_view_ := (CheckInput env.mpc_controller_conf_ self.local_view_).2.1,
          estop_ := true,
          estop_reason_ :=
            (CheckInput env.mpc_controller_conf_ self.local_view_).1.error_message }
      else
        { self with
          local_view_ := (CheckInput env.mpc_controller_conf_ self.local_view_).2.1 } := by
  unfold checkData
  dsimp only
  split
  · rfl
  · split <;> rfl

theorem CheckInput_error_message (conf : MPCControllerConf) (local_view : LocalView)
    (h : (CheckInput conf local_view).1.ok = false) :
    (CheckInput conf local_view).1.error_message ≠ "" := by
  unfold CheckInput at h ⊢
  split
  · exact append_ne_empty _ _ (by decide)
  · rename_i hgood
    rw [if_neg hgood] at h
    exact absurd h (by simp [Status.ok, Status.OK])

theorem checkData_reasonGiven {σ : Type} (env : Env σ) (now : ℚ)
    (self : MPCControllerSubmodule σ) (cmd : ControlCommand) (h : ReasonGiven self) :
    ReasonGiven (checkData env now self cmd).self := by
  rw [checkData_self]
  split
  · rename_i hbad
    intro _
    exact CheckInput_error_message _ _ hbad
  · exact h

theorem checkEstop_reasonGiven {σ : Type} (env : Env σ) (c d : MPCControllerSubmodule σ)
    (h : ReasonGiven c) (hd : checkEstop env c = some d) : ReasonGiven d := by
  have e1 : ∀ x : String, "estop from planning : " ++ x ≠ "" :=
    fun x => append_ne_empty _ x (by decide)
  have e2 : ∀ x : String, "estop for empty planning trajectory, planning headers: " ++ x ≠ "" :=
    fun x => append_ne_empty _ x (by decide)
  have e3 : "estop for negative speed when gear_drive" ≠ "" := by decide
  unfold ReasonGiven at h ⊢
  unfold checkEstop at hd
  dsimp only at hd
  split at hd
  · split at hd
    · exact absurd hd (by simp)
    · split at hd
      · cases hd
        intro _
        exact e3
      · cases hd
        split
        · intro _; exact e2 _
        · split
          · intro _; exact e1 _
          · rename_i hne
            dsimp only
            intro he
            split at he
            · simp only [Bool.or_eq_true] at he
              rcases he with he | he
              · exact h he
              · exact absurd he hne
            · exact absurd he hne
  · cases hd
    split
    · intro _; exact e2 _
    · split
      · intro _; exact e1 _
      · rename_i hne
        dsimp only
        intro he
        split at he
        · simp only [Bool.or_eq_true] at he
          rcases he with he | he
          · exact h he
          · exact absurd he hne
        · exact absurd he hne

theorem runController_reasonGiven {σ : Type} (env : Env σ) (c : Cycle σ)
    (hctl : ∀ st l ch t k,
      (env.mpc_controller.ComputeControlCommand st l ch t k).2.1.ok = false →
        (env.mpc_controller.ComputeControlCommand st l ch t k).2.1.error_message ≠ "")
    (h : ReasonGiven c.self) : ReasonGiven (runController env c).self := by
  unfold runController
  split
  · rename_i hne
    dsimp only
    split
    · rename_i hbad
      intro _
      exact hctl _ _ _ _ _ hbad
    · intro he
      exact absurd he (by simp [hne])
  · exact h

theorem ProduceControlCommand_reasonGiven {σ : Type} (env : Env σ) (now : ℚ)
    (self : MPCControllerSubmodule σ) (cmd : ControlCommand) (r : Cycle σ)
    (hctl : ∀ st l ch t k,
      (env.mpc_controller.ComputeControlCommand st l ch t k).2.1.ok = false →
        (env.mpc_controller.ComputeControlCommand st l ch t k).2.1.error_message ≠ "")
    (h : ReasonGiven self) (hr : ProduceControlCommand env now self cmd = some r) :
    ReasonGiven r.self := by
  obtain ⟨c, hc, rfl⟩ := ProduceControlCommand_eq_some env now self cmd r hr
  rw [checkSignal_self, setEstopCommand_self]
  apply runController_reasonGiven env _ hctl
  exact checkEstop_reasonGiven env _ c
    (checkData_reasonGiven env now (takeSnapshot self) cmd h) hc

theorem step_reasonGiven {σ : Type} (env : Env σ) (self s : MPCControllerSubmodule σ)
    (e : Event)
    (hctl : ∀ st l ch t k,
      (env.mpc_controller.ComputeControlCommand st l ch t k).2.1.ok = false →
        (env.mpc_controller.ComputeControlCommand st l ch t k).2.1.error_message ≠ "")
    (hnf : e.isFatal = false) (h : ReasonGiven self) (hs : step env self e = some s) :
    ReasonGiven s := by
  cases e with
  | cycle now cmd =>
    obtain ⟨r, hr, rfl⟩ := step_cycle_eq_some env self s now cmd hs
    exact ProduceControlCommand_reasonGiven env now self cmd r hctl h hr
  | pad msg =>
    cases hs
    by_cases hreset : msg.get_action = DrivingAction.RESET
    · intro he
      have := (OnPad_reset self msg hreset).1
      rw [this] at he
      exact absurd he (by simp)
    · have hk := OnPad_no_reset self msg hreset
      unfold ReasonGiven
      rw [hk.1, hk.2]
      exact h
  | monitor msg =>
    cases hs
    have : OnMonitor self msg = self := OnMonitor_loop_no_fatal self msg.item hnf
    rw [this]
    exact h
  | chassis msg => cases hs; exact h
  | planning msg => cases hs; exact h
  | localization msg => cases hs; exact h

theorem run_reasonGiven {σ : Type} (env : Env σ) (evs : List Event)
    (hctl : ∀ st l ch t k,
      (env.mpc_controller.ComputeControlCommand st l ch t k).2.1.ok = false →
        (env.mpc_controller.ComputeControlCommand st l ch t k).2.1.error_message ≠ "")
    (hnf : ∀ e ∈ evs, e.isFatal = false) :
    ∀ (self s : MPCControllerSubmodule σ), ReasonGiven self →
      run env self evs = some s → ReasonGiven s := by
  induction evs with
  | nil =>
    intro self s h hs
    cases hs
    exact h
  | cons e es ih =>
    intro self s h hs
    change (step env self e).bind (fun s => run env s es) = some s at hs
    rw [Option.bind_eq_some] at hs
    obtain ⟨m, hm, hrest⟩ := hs
    have hm2 : ReasonGiven m :=
      step_reasonGiven env self m e hctl (hnf e (List.mem_cons_self e es)) h hm
    exact ih (fun x hx => hnf x (List.mem_cons_of_mem e hx)) m s hm2 hrest

/-! ### Staleness -/

theorem CheckTimestamp_CheckInput (conf : MPCControllerConf) (now : ℚ)
    (local_view : LocalView) :
    CheckTimestamp conf now (CheckInput conf local_view).2.1 =
      CheckTimestamp conf now local_view := by
  unfold CheckTimestamp
  rw [CheckInput_localization, CheckInput_chassis, CheckInput_header]

theorem CheckInput_of_ok (conf : MPCControllerConf) (local_view : LocalView)
    (h : (CheckInput conf local_view).1.ok = true) :
    CheckInput conf local_view =
      (Status.OK,
        { local_view with
          trajectory := { local_view.trajectory with
            trajectory_point :=
              local_view.trajectory.trajectory_point.map (normalizePoint conf) } },
        [(local_view.localization, local_view.chassis)]) := by
  unfold CheckInput at h ⊢
  split
  · rename_i hbad
    rw [if_pos hbad] at h
    exact absurd h (by simp [Status.ok])
  · rfl

theorem CheckInput_points (conf : MPCControllerConf) (local_view : LocalView) :
    (CheckInput conf local_view).2.1.trajectory.trajectory_point =
      local_view.trajectory.trajectory_point.map (normalizePoint conf) := by
  unfold CheckInput
  split
  · rename_i hbad
    have h2 : local_view.trajectory.trajectory_point = [] := List.isEmpty_iff.mp hbad.2
    rw [h2]
    rfl
  · rfl

theorem checkEstop_eq_planningEstop {σ : Type} (env : Env σ) (self : MPCControllerSubmodule σ) :
    checkEstop env self =
      if env.FLAGS_enable_gear_dirve_negative_speed_protection = true then
        match self.local_view_.trajectory.trajectory_point[0]? with
        | none => none
        | some first_trajectory_point =>
          if self.local_view_.chassis.gear_location = GearPosition.GEAR_DRIVE ∧
              first_trajectory_point.v < -1 * kEpsilon then
            some { planningEstop env self with
              estop_ := true,
              estop_reason_ := "estop for negative speed when gear_drive" }
          else some (planningEstop env self)
      else some (planningEstop env self) := rfl

theorem neg_kEpsilon : -1 * kEpsilon = -(1 / 1000 : ℚ) := by
  unfold kEpsilon
  norm_num

theorem checkData_fresh_logs {σ : Type} (env : Env σ) (now : ℚ)
    (self : MPCControllerSubmodule σ) (cmd : ControlCommand) :
    (checkData env now self cmd).controller_calls = [] ∧
      (checkData env now self cmd).status_compute = none := by
  unfold checkData
  dsimp only
  split
  · exact ⟨rfl, rfl⟩
  · split <;> exact ⟨rfl, rfl⟩

theorem checkSignal_controller_calls {σ : Type} (c : Cycle σ) :
    (checkSignal c).controller_calls = c.controller_calls := by
  unfold checkSignal
  split <;> rfl

theorem setEstopCommand_controller_calls {σ : Type} (env : Env σ) (c : Cycle σ) :
    (setEstopCommand env c).controller_calls = c.controller_calls := by
  unfold setEstopCommand
  split <;> rfl

theorem ProduceControlCommand_of_checkEstop {σ : Type} (env : Env σ) (now : ℚ)
    (self d : MPCControllerSubmodule σ) (cmd : ControlCommand)
    (hd : checkEstop env (checkData env now (takeSnapshot self) cmd).self = some d) :
    ProduceControlCommand env now self cmd =
      some (checkSignal (setEstopCommand env (runController env
        { checkData env now (takeSnapshot self) cmd with self := d }))) := by
  unfold ProduceControlCommand
  dsimp only
  rw [hd]
  rfl

/-- A cycle whose estop flag is set after the estop rules: the controller is not touched,
the object is left as the rules left it, and the estop command is returned with the status
and the engage advice of the checks. -/
theorem ProduceControlCommand_of_stopped {σ : Type} (env : Env σ) (now : ℚ)
    (self d : MPCControllerSubmodule σ) (cmd : ControlCommand)
    (hd : checkEstop env (checkData env now (takeSnapshot self) cmd).self = some d)
    (he : d.estop_ = true) :
    ∃ r, ProduceControlCommand env now self cmd = some r ∧ r.self = d ∧
      IsEstopCommand env.mpc_controller_conf_ r.control_command ∧
      r.controller_calls = [] ∧ r.status_compute = none ∧
      r.status = (checkData env now (takeSnapshot self) cmd).status ∧
      r.control_command.engage_advice =
        (checkData env now (takeSnapshot self) cmd).control_command.engage_advice := by
  refine ⟨_, ProduceControlCommand_of_checkEstop env now self d cmd hd, ?_⟩
  have hrun : runController env { checkData env now (takeSnapshot self) cmd with self := d } =
      { checkData env now (takeSnapshot self) cmd with self := d } :=
    runController_of_estop env _ he
  have hlogs := checkData_fresh_logs env now (takeSnapshot self) cmd
  rw [hrun]
  refine ⟨?_, ?_, ?_, ?_, ?_, ?_⟩
  · rw [checkSignal_self, setEstopCommand_self]
  · exact checkSignal_estopCommand _ _ (setEstopCommand_of_estop env _ he)
  · rw [checkSignal_controller_calls, setEstopCommand_controller_calls]
    exact hlogs.1
  · rw [checkSignal_status_compute, setEstopCommand_status_compute]
    exact hlogs.2
  · rw [checkSignal_status, setEstopCommand_status]
  · rw [checkSignal_engage_advice, setEstopCommand_engage_advice]

theorem checkData_snapshot_view {σ : Type} (env : Env σ) (now : ℚ)
    (self : MPCControllerSubmodule σ) (cmd : ControlCommand) :
    (checkData env now (takeSnapshot self) cmd).self.local_view_ =
      (CheckInput env.mpc_controller_conf_ self.snapshot).2.1 :=
  checkData_local_view env now (takeSnapshot self) cmd

theorem checkData_snapshot_points {σ : Type} (env : Env σ) (now : ℚ)
    (self : MPCControllerSubmodule σ) (cmd : ControlCommand) :
    (checkData env now (takeSnapshot self) cmd).self.local_view_.trajectory.trajectory_point =
      self.latest_trajectory_.trajectory_point.map (normalizePoint env.mpc_controller_conf_) := by
  rw [checkData_snapshot_view, CheckInput_points]
  rfl

theorem checkData_snapshot_chassis {σ : Type} (env : Env σ) (now : ℚ)
    (self : MPCControllerSubmodule σ) (cmd : ControlCommand) :
    (checkData env now (takeSnapshot self) cmd).self.local_view_.chassis =
      self.latest_chassis_ := by
  rw [checkData_snapshot_view, CheckInput_chassis]
  rfl

theorem checkData_snapshot_estop {σ : Type} (env : Env σ) (now : ℚ)
    (self : MPCControllerSubmodule σ) (cmd : ControlCommand) :
    (checkData env now (takeSnapshot self) cmd).self.local_view_.trajectory.estop =
      self.latest_trajectory_.estop := by
  rw [checkData_snapshot_view, CheckInput_estop]
  rfl

/-- The negative-speed protection on a trajectory with a first point: the object after
the estop rules. -/
theorem checkEstop_of_first_point {σ : Type} (env : Env σ) (s : MPCControllerSubmodule σ)
    (p : TrajectoryPoint) (ps : List TrajectoryPoint)
    (hpts : s.local_view_.trajectory.trajectory_point = p :: ps) :
    checkEstop env s =
      if env.FLAGS_enable_gear_dirve_negative_speed_protection = true ∧
          s.local_view_.chassis.gear_location = GearPosition.GEAR_DRIVE ∧
          p.v < -(1 / 1000) then
        some { planningEstop env s with
          estop_ := true,
          estop_reason_ := "estop for negative speed when gear_drive" }
      else some (planningEstop env s) := by
  rw [checkEstop_eq_planningEstop, hpts, neg_kEpsilon]
  simp only [List.getElem?_cons_zero]
  by_cases hf : env.FLAGS_enable_gear_dirve_negative_speed_protection = true
  · rw [if_pos hf]
    by_cases hg : s.local_view_.chassis.gear_location = GearPosition.GEAR_DRIVE ∧
        p.v < -(1 / 1000)
    · rw [if_pos hg, if_pos ⟨hf, hg⟩]
    · rw [if_neg hg, if_neg (fun h => hg h.2)]
  · rw [if_neg hf, if_neg (fun h => hf h.1)]

/-! ### Estop recomputed every cycle -/

theorem checkEstop_fresh {σ : Type} (env : Env σ) (s : MPCControllerSubmodule σ) (b : Bool)
    (hp : env.mpc_controller_conf_.enable_persistent_estop = false) :
    checkEstop env { s with estop_ := b } = checkEstop env s := by
  unfold checkEstop
  simp only [hp]
  rfl

theorem checkData_with_estop {σ : Type} (env : Env σ) (now : ℚ)
    (self : MPCControllerSubmodule σ) (cmd : ControlCommand) (b : Bool) :
    checkData env now (takeSnapshot { self with estop_ := b }) cmd =
      { checkData env now (takeSnapshot self) cmd with
        self :=
          { (checkData env now (takeSnapshot self) cmd).self with
            estop_ :=
              if (CheckInput env.mpc_controller_conf_ self.snapshot).1.ok = false then true
              else b } } := by
  simp only [checkData, takeSnapshot, MPCControllerSubmodule.snapshot]
  split_ifs <;> rfl

theorem ProduceControlCommand_fresh {σ : Type} (env : Env σ) (now : ℚ)
    (self : MPCControllerSubmodule σ) (cmd : ControlCommand) (b : Bool)
    (hp : env.mpc_controller_conf_.enable_persistent_estop = false) :
    ProduceControlCommand env now { self with estop_ := b } cmd =
      ProduceControlCommand env now self cmd := by
  have h1 := checkData_with_estop env now self cmd b
  unfold ProduceControlCommand
  dsimp only
  rw [h1]
  dsimp only
  rw [checkEstop_fresh env _ _ hp]

theorem planningEstop_estop_fresh {σ : Type} (env : Env σ) (s : MPCControllerSubmodule σ)
    (hp : env.mpc_controller_conf_.enable_persistent_estop = false) :
    (planningEstop env s).estop_ =
      (s.local_view_.trajectory.estop.is_estop ||
        s.local_view_.trajectory.trajectory_point.isEmpty) := by
  unfold planningEstop
  dsimp only
  cases h1 : s.local_view_.trajectory.estop.is_estop <;>
    cases h2 : s.local_view_.trajectory.trajectory_point.isEmpty <;>
    simp [hp, h1, h2]

/-! ### The controller -/

theorem runController_of_running {σ : Type} (env : Env σ) (c : Cycle σ)
    (h : c.self.estop_ = false) :
    runController env c =
      if (delegate env c).2.1.ok = false then
        { c with
          self :=
            { c.self with
              mpc_controller_ := (delegate env c).1,
              latest_replan_trajectory_header_ := replanHeader c,
              estop_ := true,
              estop_reason_ := (delegate env c).2.1.error_message },
          status := (delegate env c).2.1,
          control_command := (delegate env c).2.2,
          status_compute := some (delegate env c).2.1,
          controller_calls :=
            (resetInManual env c).2 ++
              [ControllerCall.ComputeControlCommand c.self.local_view_.localization
                c.self.local_view_.chassis c.self.local_view_.trajectory (attachDebug c)] }
      else
        { c with
          self :=
            { c.self with
              mpc_controller_ := (delegate env c).1,
              latest_replan_trajectory_header_ := replanHeader c },
          control_command := (delegate env c).2.2,
          status_compute := some (delegate env c).2.1,
          controller_calls :=
            (resetInManual env c).2 ++
              [ControllerCall.ComputeControlCommand c.self.local_view_.localization
                c.self.local_view_.chassis c.self.local_view_.trajectory (attachDebug c)] } := by
  unfold runController
  rw [if_pos h]

theorem checkEstop_frame {σ : Type} (env : Env σ) (s d : MPCControllerSubmodule σ)
    (h : checkEstop env s = some d) :
    d = { s with estop_ := d.estop_, estop_reason_ := d.estop_reason_ } := by
  unfold checkEstop at h
  dsimp only at h
  split at h
  · split at h
    · exact absurd h (by simp)
    · split at h <;>
        (cases h
         try (split <;> split <;> rfl))
  · cases h
    split <;> split <;> rfl

theorem checkData_frame {σ : Type} (env : Env σ) (now : ℚ)
    (self : MPCControllerSubmodule σ) (cmd : ControlCommand) :
    (checkData env now (takeSnapshot self) cmd).self =
      { self with
        local_view_ := (CheckInput env.mpc_controller_conf_ self.snapshot).2.1,
        estop_ := (checkData env now (takeSnapshot self) cmd).self.estop_,
        estop_reason_ := (checkData env now (takeSnapshot self) cmd).self.estop_reason_ } := by
  rw [checkData_self]
  split <;> rfl

theorem checked_frame {σ : Type} (env : Env σ) (now : ℚ)
    (self d : MPCControllerSubmodule σ) (cmd : ControlCommand)
    (hd : checkEstop env (checkData env now (takeSnapshot self) cmd).self = some d) :
    d = { self with
        local_view_ := (CheckInput env.mpc_controller_conf_ self.snapshot).2.1,
        estop_ := d.estop_,
        estop_reason_ := d.estop_reason_ } := by
  have h1 := checkEstop_frame env _ d hd
  have h2 := checkData_frame env now self cmd
  rw [h2] at h1
  exact h1

theorem CheckInput_trajectory (conf : MPCControllerConf) (local_view : LocalView) :
    (CheckInput conf local_view).2.1.trajectory =
      { local_view.trajectory with
        trajectory_point := local_view.trajectory.trajectory_point.map (normalizePoint conf) } := by
  unfold CheckInput
  split
  · rename_i hbad
    have h2 : local_view.trajectory.trajectory_point = [] := List.isEmpty_iff.mp hbad.2
    dsimp only
    rw [h2]
    cases hk : local_view.trajectory with
    | mk header pts estop is_replan decision =>
      rw [hk] at h2
      dsimp only at h2
      rw [h2]
      rfl
  · rfl

theorem planningEstop_of_planning_estop {σ : Type} (env : Env σ)
    (s : MPCControllerSubmodule σ)
    (he : s.local_view_.trajectory.estop.is_estop = true)
    (hne : s.local_view_.trajectory.trajectory_point.isEmpty = false) :
    (planningEstop env s).estop_ = true ∧
      (planningEstop env s).estop_reason_ =
        "estop from planning : " ++ s.local_view_.trajectory.estop.reason := by
  unfold planningEstop
  dsimp only
  rw [if_pos he, if_neg (by simp [hne])]
  exact ⟨rfl, rfl⟩

theorem checkEstop_estop_of_planning {σ : Type} (env : Env σ)
    (s d : MPCControllerSubmodule σ)
    (he : s.local_view_.trajectory.estop.is_estop = true)
    (h : checkEstop env s = some d) : d.estop_ = true := by
  unfold checkEstop at h
  dsimp only at h
  rw [if_pos he] at h
  split at h
  · split at h
    · exact absurd h (by simp)
    · split at h <;>
        (cases h
         try (split <;> rfl))
  · cases h
    split <;> rfl

theorem OnMonitor_loop_replan {σ : Type} (self : MPCControllerSubmodule σ)
    (items : List MonitorMessageItem) :
    (OnMonitor.loop self items).latest_replan_trajectory_header_ =
      self.latest_replan_trajectory_header_ := by
  induction items with
  | nil => rfl
  | cons item rest ih =>
    unfold OnMonitor.loop
    split
    · rfl
    · exact ih

theorem OnPad_replan {σ : Type} (self : MPCControllerSubmodule σ) (pad : PadMessage) :
    (OnPad self pad).latest_replan_trajectory_header_ =
      self.latest_replan_trajectory_header_ := by
  unfold OnPad
  dsimp only
  split <;> rfl

theorem checkData_command {σ : Type} (env : Env σ) (now : ℚ)
    (self : MPCControllerSubmodule σ) (cmd : ControlCommand) :
    (checkData env now (takeSnapshot self) cmd).control_command =
      if (CheckInput env.mpc_controller_conf_ self.snapshot).1.ok = false then
        { cmd with
          engage_advice :=
            ⟨Advice.DISALLOW_ENGAGE,
              (CheckInput env.mpc_controller_conf_ self.snapshot).1.error_message⟩ }
      else if (CheckTimestamp env.mpc_controller_conf_ now self.snapshot).ok = false then
        (if self.latest_chassis_.driving_mode ≠ DrivingMode.COMPLETE_AUTO_DRIVE then
          { cmd with
            engage_advice :=
              ⟨Advice.DISALLOW_ENGAGE,
                (CheckTimestamp env.mpc_controller_conf_ now self.snapshot).error_message⟩ }
        else cmd)
      else
        { cmd with
          engage_advice := { cmd.engage_advice with advice := Advice.READY_TO_ENGAGE } } := by
  simp only [checkData, takeSnapshot, MPCControllerSubmodule.snapshot,
    CheckTimestamp_CheckInput, CheckInput_chassis]
  split_ifs <;> rfl

theorem runController_replan {σ : Type} (env : Env σ) (c : Cycle σ) :
    (runController env c).self.latest_replan_trajectory_header_ =
      if c.self.estop_ = false ∧ c.self.local_view_.trajectory.is_replan = true then
        c.self.local_view_.trajectory.header
      else c.self.latest_replan_trajectory_header_ := by
  by_cases h : c.self.estop_ = false
  · rw [runController_of_running env c h]
    have hk : (if (delegate env c).2.1.ok = false then
          ({ c with
            self :=
              { c.self with
                mpc_controller_ := (delegate env c).1,
                latest_replan_trajectory_header_ := replanHeader c,
                estop_ := true,
                estop_reason_ := (delegate env c).2.1.error_message },
            status := (delegate env c).2.1,
            control_command := (delegate env c).2.2,
            status_compute := some (delegate env c).2.1,
            controller_calls :=
              (resetInManual env c).2 ++
                [ControllerCall.ComputeControlCommand c.self.local_view_.localization
                  c.self.local_view_.chassis c.self.local_view_.trajectory (attachDebug c)] } :
            Cycle σ)
        else
          { c with
            self :=
              { c.self with
                mpc_controller_ := (delegate env c).1,
                latest_replan_trajectory_header_ := replanHeader c },
            control_command := (delegate env c).2.2,
            status_compute := some (delegate env c).2.1,
            controller_calls :=
              (resetInManual env c).2 ++
                [ControllerCall.ComputeControlCommand c.self.local_view_.localization
                  c.self.local_view_.chassis c.self.local_view_.trajectory
                  (attachDebug c)] }).self.latest_replan_trajectory_header_ =
        replanHeader c := by
      split <;> rfl
    rw [hk]
    unfold replanHeader
    by_cases hr : c.self.local_view_.trajectory.is_replan = true
    · rw [if_pos hr, if_pos ⟨h, hr⟩]
    · rw [if_neg hr, if_neg (fun hh => hr hh.2)]
  · have h2 : c.self.estop_ = true := by
      cases hb : c.self.estop_
      · exact absurd hb h
      · rfl
    rw [runController_of_estop env c h2, if_neg (fun hh => h hh.1)]

theorem runController_calls {σ : Type} (env : Env σ) (c : Cycle σ)
    (h : c.self.estop_ = false) :
    (runController env c).controller_calls =
        (resetInManual env c).2 ++
          [ControllerCall.ComputeControlCommand c.self.local_view_.localization
            c.self.local_view_.chassis c.self.local_view_.trajectory (attachDebug c)] ∧
      (runController env c).self.mpc_controller_ = (delegate env c).1 := by
  rw [runController_of_running env c h]
  split <;> exact ⟨rfl, rfl⟩

theorem checkSignal_frame {σ : Type} (c : Cycle σ) :
    (checkSignal c).self = c.self ∧ (checkSignal c).controller_calls = c.controller_calls :=
  ⟨checkSignal_self c, checkSignal_controller_calls c⟩

theorem CheckInput_ok_of_points (conf : MPCControllerConf) (local_view : LocalView)
    (h : local_view.trajectory.trajectory_point ≠ []) :
    ¬ (CheckInput conf local_view).1.ok = false := by
  unfold CheckInput
  rw [if_neg]
  · simp [Status.ok, Status.OK]
  · rintro ⟨_, h2⟩
    exact h (List.isEmpty_iff.mp h2)

/-! ### Outcomes up to the text of the reason -/

theorem planningEstop_fresh_withoutReason {σ : Type} (env : Env σ)
    (x : MPCControllerSubmodule σ) (b : Bool) (reason : String)
    (hp : env.mpc_controller_conf_.enable_persistent_estop = false) :
    (planningEstop env { x with estop_ := b, estop_reason_ := reason }).withoutReason =
      (planningEstop env x).withoutReason := by
  unfold planningEstop
  simp only [hp, Bool.false_eq_true, if_false]
  split_ifs <;> rfl

theorem checkEstop_fresh_withoutReason {σ : Type} (env : Env σ)
    (x : MPCControllerSubmodule σ) (b : Bool) (reason : String)
    (hp : env.mpc_controller_conf_.enable_persistent_estop = false) :
    (checkEstop env { x with estop_ := b, estop_reason_ := reason }).map
        MPCControllerSubmodule.withoutReason =
      (checkEstop env x).map MPCControllerSubmodule.withoutReason := by
  have hpl := planningEstop_fresh_withoutReason env x b reason hp
  rw [checkEstop_eq_planningEstop, checkEstop_eq_planningEstop]
  show (if env.FLAGS_enable_gear_dirve_negative_speed_protection = true then
      match x.local_view_.trajectory.trajectory_point[0]? with
      | none => none
      | some first_trajectory_point =>
        if x.local_view_.chassis.gear_location = GearPosition.GEAR_DRIVE ∧
            first_trajectory_point.v < -1 * kEpsilon then
          some { planningEstop env { x with estop_ := b, estop_reason_ := reason } with
            estop_ := true,
            estop_reason_ := "estop for negative speed when gear_drive" }
        else some (planningEstop env { x with estop_ := b, estop_reason_ := reason })
    else some (planningEstop env { x with estop_ := b, estop_reason_ := reason })).map
      MPCControllerSubmodule.withoutReason = _
  split
  · split
    · rfl
    · split
      · show some (MPCControllerSubmodule.withoutReason _) =
          some (MPCControllerSubmodule.withoutReason _)
        have hk : ∀ y z : MPCControllerSubmodule σ, y.withoutReason = z.withoutReason →
            MPCControllerSubmodule.withoutReason
              { y with estop_ := true,
                       estop_reason_ := "estop for negative speed when gear_drive" } =
            MPCControllerSubmodule.withoutReason
              { z with estop_ := true,
                       estop_reason_ := "estop for negative speed when gear_drive" } := by
          intro y z hyz
          unfold MPCControllerSubmodule.withoutReason at hyz ⊢
          cases y
          cases z
          simp only [MPCControllerSubmodule.mk.injEq] at hyz ⊢
          simp [hyz]
        rw [hk _ _ hpl]
      · show some (MPCControllerSubmodule.withoutReason _) =
          some (MPCControllerSubmodule.withoutReason _)
        rw [hpl]
  · show some (MPCControllerSubmodule.withoutReason _) =
      some (MPCControllerSubmodule.withoutReason _)
    rw [hpl]

theorem checkData_with_record {σ : Type} (env : Env σ) (now : ℚ)
    (self : MPCControllerSubmodule σ) (cmd : ControlCommand) (b : Bool) (reason : String) :
    checkData env now (takeSnapshot { self with estop_ := b, estop_reason_ := reason }) cmd =
      { checkData env now (takeSnapshot self) cmd with
        self :=
          { (checkData env now (takeSnapshot self) cmd).self with
            estop_ :=
              if (CheckInput env.mpc_controller_conf_ self.snapshot).1.ok = false then true
              else b,
            estop_reason_ :=
              if (CheckInput env.mpc_controller_conf_ self.snapshot).1.ok = false then
                (CheckInput env.mpc_controller_conf_ self.snapshot).1.error_message
              else reason } } := by
  simp only [checkData, takeSnapshot, MPCControllerSubmodule.snapshot]
  split_ifs <;> rfl

theorem runController_withoutReason {σ : Type} (env : Env σ) (c : Cycle σ)
    (d : MPCControllerSubmodule σ) (reason : String) :
    (runController env { c with self := { d with estop_reason_ := reason } }).withoutReason =
      (runController env { c with self := d }).withoutReason := by
  unfold runController
  dsimp only
  by_cases h : d.estop_ = false
  · rw [if_pos h, if_pos h]
    by_cases hbad : (delegate env { c with self := d }).2.1.ok = false
    · have hbad2 : (delegate env
          { c with self := { d with estop_reason_ := reason } }).2.1.ok = false := hbad
      rw [if_pos hbad, if_pos hbad2]
      rfl
    · have hbad2 : ¬ (delegate env
          { c with self := { d with estop_reason_ := reason } }).2.1.ok = false := hbad
      rw [if_neg hbad, if_neg hbad2]
      rfl
  · rw [if_neg h, if_neg h]
    rfl

theorem setEstopCommand_withoutReason {σ : Type} (env : Env σ) (c : Cycle σ) :
    (setEstopCommand env c).withoutReason = setEstopCommand env c.withoutReason := by
  unfold setEstopCommand
  by_cases h : c.self.estop_ = true
  · have h2 : c.withoutReason.self.estop_ = true := h
    rw [if_pos h, if_pos h2]
    rfl
  · have h2 : ¬ c.withoutReason.self.estop_ = true := h
    rw [if_neg h, if_neg h2]

theorem checkSignal_withoutReason {σ : Type} (c : Cycle σ) :
    (checkSignal c).withoutReason = checkSignal c.withoutReason := by
  unfold checkSignal Cycle.withoutReason MPCControllerSubmodule.withoutReason
  dsimp only
  split <;> rfl

theorem finish_withoutReason {σ : Type} (env : Env σ) (c : Cycle σ) :
    (checkSignal (setEstopCommand env c)).withoutReason =
      checkSignal (setEstopCommand env c.withoutReason) := by
  rw [checkSignal_withoutReason, setEstopCommand_withoutReason]

theorem checkEstop_checkData_fresh_record {σ : Type} (env : Env σ) (now : ℚ)
    (self : MPCControllerSubmodule σ) (cmd : ControlCommand) (b : Bool) (reason : String)
    (hp : env.mpc_controller_conf_.enable_persistent_estop = false) :
    (checkEstop env
        (checkData env now (takeSnapshot { self with estop_ := b, estop_reason_ := reason })
          cmd).self).map MPCControllerSubmodule.withoutReason =
      (checkEstop env (checkData env now (takeSnapshot self) cmd).self).map
        MPCControllerSubmodule.withoutReason := by
  have h1 := checkData_with_record env now self cmd b reason
  rw [h1]
  dsimp only
  exact (checkEstop_fresh_withoutReason env _ _ _ hp).trans
    (checkEstop_fresh_withoutReason env (checkData env now (takeSnapshot self) cmd).self
      (checkData env now (takeSnapshot self) cmd).self.estop_
      (checkData env now (takeSnapshot self) cmd).self.estop_reason_ hp).symm

theorem ProduceControlCommand_fresh_record {σ : Type} (env : Env σ) (now : ℚ)
    (self : MPCControllerSubmodule σ) (cmd : ControlCommand) (b : Bool) (reason : String)
    (hp : env.mpc_controller_conf_.enable_persistent_estop = false) :
    (ProduceControlCommand env now { self with estop_ := b, estop_reason_ := reason }
        cmd).map Cycle.withoutReason =
      (ProduceControlCommand env now self cmd).map Cycle.withoutReason := by
  have h1 := checkData_with_record env now self cmd b reason
  have h2 := checkEstop_checkData_fresh_record env now self cmd b reason hp
  have hF : ∀ st : MPCControllerSubmodule σ,
      (checkSignal (setEstopCommand env (runController env
        { checkData env now (takeSnapshot self) cmd with self := st }))).withoutReason =
      (checkSignal (setEstopCommand env (runController env
        { checkData env now (takeSnapshot self) cmd with
          self := st.withoutReason }))).withoutReason := by
    intro st
    rw [finish_withoutReason, finish_withoutReason]
    exact congrArg (fun x => checkSignal (setEstopCommand env x))
      (runController_withoutReason env (checkData env now (takeSnapshot self) cmd) st "").symm
  unfold ProduceControlCommand
  dsimp only
  rw [Option.map_map, Option.map_map, h1]
  dsimp only
  have hcomp : ∀ o : Option (MPCControllerSubmodule σ),
      o.map (Cycle.withoutReason ∘ fun stopped =>
        checkSignal (setEstopCommand env (runController env
          { checkData env now (takeSnapshot self) cmd with self := stopped }))) =
      (o.map MPCControllerSubmodule.withoutReason).map (fun st =>
        (checkSignal (setEstopCommand env (runController env
          { checkData env now (takeSnapshot self) cmd with self := st }))).withoutReason) := by
    intro o
    cases o with
    | none => rfl
    | some st => exact congrArg some (hF st)
  rw [h1] at h2
  dsimp only at h2
  exact (hcomp _).trans ((congrArg _ h2).trans (hcomp _).symm)

theorem map_estop_of_withoutReason {σ : Type} (o1 o2 : Option (MPCControllerSubmodule σ))
    (h : o1.map MPCControllerSubmodule.withoutReason =
      o2.map MPCControllerSubmodule.withoutReason) :
    o1.map (fun d => d.estop_) = o2.map (fun d => d.estop_) := by
  have hk := congrArg (Option.map (fun d : MPCControllerSubmodule σ => d.estop_)) h
  rw [Option.map_map, Option.map_map] at hk
  exact hk

/-! ### The component entry point -/

/-- When the chassis reader has a message and the cycle returns, `Proc` stores the
message, runs `ProduceControlCommand` on a fresh command, writes exactly the one command
the cycle filled and returns true, whatever status the cycle returned. When the reader
has no message, `Proc` writes nothing, runs no cycle, leaves the object (and so the estop
record) as it was and returns false. -/
theorem Proc_of_returning_cycle {σ : Type} (env : Env σ) (now : ℚ)
    (self : MPCControllerSubmodule σ) :
    (∀ chassis c,
      ProduceControlCommand env now (OnChassis self chassis) ControlCommand.empty = some c →
      ∃ p, Proc env now self (some chassis) = some p ∧
        p.written = [c.control_command] ∧ p.written.length = 1 ∧ p.returned = true ∧
        p.cycle = some c ∧ p.self = c.self) ∧
    (∃ p, Proc env now self none = some p ∧
      p.written = [] ∧ p.cycle = none ∧ p.returned = false ∧ p.self = self ∧
      p.self.estopRecord = self.estopRecord) := by
  constructor
  · intro chassis c hc
    have hp : Proc env now self (some chassis) =
        some { self := c.self, returned := true, written := [c.control_command],
               cycle := some c } := by
      show (ProduceControlCommand env now (OnChassis self chassis) ControlCommand.empty).map _
        = _
      rw [hc]
      rfl
    exact ⟨_, hp, rfl, rfl, rfl, rfl, rfl⟩
  · exact ⟨_, rfl, rfl, rfl, rfl, rfl, rfl⟩

/-- With the negative-speed protection off and a trajectory without points, the cycle
returns an error status, and `Proc` still writes one command, with the soft-estop brake,
and returns true. -/
theorem Proc_on_empty_trajectory_unprotected :
    ∃ c p,
      ProduceControlCommand sampleEnv 10 (OnChassis starvedSubmodule sampleChassis)
        ControlCommand.empty = some c ∧
      c.status.ok = false ∧
      Proc sampleEnv 10 starvedSubmodule (some sampleChassis) = some p ∧
      p.written = [c.control_command] ∧ p.written.length = 1 ∧ p.returned = true ∧
      c.control_command.brake = 50 := by
  obtain ⟨c, hc, hstatus, _, _, _, hcmd, _⟩ :=
    empty_trajectory_cycle_unprotected sampleEnv 10 (OnChassis starvedSubmodule sampleChassis)
      ControlCommand.empty rfl rfl rfl
  obtain ⟨p, hp, hw, hl, hret, _, _⟩ :=
    (Proc_of_returning_cycle sampleEnv 10 starvedSubmodule).1 sampleChassis c hc
  refine ⟨c, p, hc, ?_, hp, hw, hl, hret, hcmd.2.2.1⟩
  rw [hstatus]
  rfl

/-! ## The claims -/

/-- C1 (estop latch), evaluated where the code departs from it: persistent estop, the
estop latched at the start of the cycle, the negative-speed protection enabled and a
snapshot trajectory without points. The cycle reads `trajectory_point(0)` out of range
and returns no command. -/
theorem latched_cycle_reads_out_of_range :
    protectedEnv.mpc_controller_conf_.enable_persistent_estop = true ∧
    protectedEnv.FLAGS_enable_gear_dirve_negative_speed_protection = true ∧
    stoppedStarvedSubmodule.estop_ = true ∧
    stoppedStarvedSubmodule.snapshot.trajectory.trajectory_point = [] ∧
    ProduceControlCommand protectedEnv 10 stoppedStarvedSubmodule ControlCommand.empty = none :=
  ⟨rfl, rfl, rfl, rfl, rfl⟩

/-- C2 (canonical stop command). Every cycle of `ProduceControlCommand` that finishes with
the estop flag set, whichever rule or controller failure set it and whatever the
controller wrote into the command, returns a command with speed 0, throttle 0, brake
equal to the configured `soft_estop_brake` and gear `GEAR_DRIVE`. -/
theorem estop_command_when_stopped {σ : Type} (env : Env σ) (now : ℚ)
    (self : MPCControllerSubmodule σ) (cmd : ControlCommand) (r : Cycle σ)
    (h : ProduceControlCommand env now self cmd = some r) (he : r.self.estop_ = true) :
    r.control_command.speed = 0 ∧ r.control_command.throttle = 0 ∧
      r.control_command.brake = env.mpc_controller_conf_.soft_estop_brake ∧
      r.control_command.gear_location = GearPosition.GEAR_DRIVE := by
  obtain ⟨c, _, rfl⟩ := ProduceControlCommand_eq_some env now self cmd r h
  rw [checkSignal_self, setEstopCommand_self] at he
  exact checkSignal_estopCommand _ _ (setEstopCommand_of_estop env _ he)

/-- Witness for C2: the controller writes throttle 1/2 and fails; the cycle ends with the
estop flag set and the returned command is the estop command. -/
theorem estop_command_when_stopped_witness :
    ∃ r, ProduceControlCommand silentEnv 10 readySubmodule ControlCommand.empty = some r ∧
      r.self.estop_ = true ∧
      (r.control_command.speed = 0 ∧ r.control_command.throttle = 0 ∧
        r.control_command.brake = silentEnv.mpc_controller_conf_.soft_estop_brake ∧
        r.control_command.gear_location = GearPosition.GEAR_DRIVE) := by
  have h : (ProduceControlCommand silentEnv 10 readySubmodule ControlCommand.empty).map
      (fun r => r.self.estop_) = some true := by decide!
  obtain ⟨r, hr, he⟩ := Option.map_eq_some'.mp h
  exact ⟨r, hr, he, estop_command_when_stopped silentEnv 10 readySubmodule
    ControlCommand.empty r hr he⟩

/-- C3 (reset), counterexample to the claim as stated: with the estop recomputed every
cycle, a cycle on a planning estop followed by a cycle on a trajectory without estop
leaves `estop_` false (line 175) and the reason of the earlier estop stored; the record is
Normal, and `OnPad` with action `RESET` changes it, to `(false, "")`. -/
theorem reset_changes_normal_record :
    freshEnv.mpc_controller_conf_.enable_persistent_estop = false ∧
    (run freshEnv initialSubmodule staleReasonEvents).map
      (fun s => s.estopRecord) = some (false, "estop from planning : obstacle") ∧
    (run freshEnv initialSubmodule staleReasonEvents).map
      (fun s => (OnPad s ⟨some DrivingAction.RESET⟩).estopRecord) = some (false, "") ∧
    (run freshEnv initialSubmodule staleReasonEvents).map
      (fun s => decide ((OnPad s ⟨some DrivingAction.RESET⟩).estopRecord = s.estopRecord)) =
      some false := by
  refine ⟨rfl, ?_, ?_, ?_⟩
  · decide!
  · decide!
  · decide!

/-- C3 (reset), amended. `OnPad` with action `RESET` leaves the estop record at
`(false, "")` from every prior state. Applied while `estop_` is already false it leaves
`estop_` false and empties the stored reason, so it leaves the estop record unchanged
exactly when the stored reason was already empty. A second `RESET` gives the same record
as the first. `OnPad` with any other action leaves `estop_` and `estop_reason_`
unchanged. -/
theorem OnPad_estop_record {σ : Type} (self : MPCControllerSubmodule σ) (pad pad2 : PadMessage) :
    (pad.get_action = DrivingAction.RESET →
      (OnPad self pad).estop_ = false ∧ (OnPad self pad).estop_reason_ = "" ∧
        (OnPad self pad).estopRecord = (false, "")) ∧
    (pad.get_action = DrivingAction.RESET → self.estop_ = false →
      (OnPad self pad).estop_ = self.estop_ ∧
        ((OnPad self pad).estopRecord = self.estopRecord ↔ self.estop_reason_ = "")) ∧
    (pad.get_action = DrivingAction.RESET → pad2.get_action = DrivingAction.RESET →
      (OnPad (OnPad self pad) pad2).estopRecord = (OnPad self pad).estopRecord) ∧
    (pad.get_action ≠ DrivingAction.RESET →
      (OnPad self pad).estop_ = self.estop_ ∧
        (OnPad self pad).estop_reason_ = self.estop_reason_ ∧
        (OnPad self pad).estopRecord = self.estopRecord) := by
  refine ⟨?_, ?_, ?_, ?_⟩
  · intro h
    simp [OnPad, h, MPCControllerSubmodule.estopRecord]
  · intro h hn
    have hr : (OnPad self pad).estopRecord = (false, "") := by
      simp [OnPad, h, MPCControllerSubmodule.estopRecord]
    refine ⟨?_, ?_⟩
    · rw [hn]
      simp [OnPad, h]
    · rw [hr]
      unfold MPCControllerSubmodule.estopRecord
      rw [hn]
      constructor
      · intro he
        exact (congrArg Prod.snd he).symm
      · intro he
        rw [he]
  · intro h h2
    simp [OnPad, h, h2, MPCControllerSubmodule.estopRecord]
  · intro h
    simp [OnPad, h, MPCControllerSubmodule.estopRecord]

/-- Witness for C3: a `RESET` clears the latched record of `stoppedSubmodule`, and a second
one leaves it cleared; on `staleReasonSubmodule`, whose flag is clear, a `RESET` keeps the
flag and changes the record; a `START` leaves the latched record as it was. -/
theorem OnPad_estop_record_witness :
    (OnPad stoppedSubmodule ⟨some DrivingAction.RESET⟩).estopRecord = (false, "") ∧
    (OnPad (OnPad stoppedSubmodule ⟨some DrivingAction.RESET⟩)
      ⟨some DrivingAction.RESET⟩).estopRecord = (false, "") ∧
    staleReasonSubmodule.estop_ = false ∧
    (OnPad staleReasonSubmodule ⟨some DrivingAction.RESET⟩).estop_ = false ∧
    (OnPad staleReasonSubmodule ⟨some DrivingAction.RESET⟩).estopRecord ≠
      staleReasonSubmodule.estopRecord ∧
    (OnPad stoppedSubmodule ⟨some DrivingAction.START⟩).estopRecord =
      (true, "estop from planning : test") := by
  have h := OnPad_estop_record stoppedSubmodule ⟨some DrivingAction.RESET⟩
    ⟨some DrivingAction.RESET⟩
  have h1 := (h.1 rfl).2.2
  have h3 := h.2.2.1 rfl rfl
  have h2 := (OnPad_estop_record staleReasonSubmodule ⟨some DrivingAction.RESET⟩
    ⟨some DrivingAction.RESET⟩).2.1 rfl rfl
  have h4 := ((OnPad_estop_record stoppedSubmodule ⟨some DrivingAction.START⟩
    ⟨some DrivingAction.START⟩).2.2.2 (by decide)).2.2
  refine ⟨h1, ?_, rfl, ?_, ?_, ?_⟩
  · rw [h3, h1]
  · rw [h2.1]
    rfl
  · intro he
    have hs := h2.2.mp he
    exact absurd hs (by decide)
  · rw [h4]
    rfl

/-- C4 (fatal alert), counterexample to the claim as stated: with
`enable_persistent_estop` false, `OnMonitor` sets `estop_` on a fatal item, and the next
cycle on the sample snapshot ends with `estop_` false and returns the controller's
command (throttle 1/2, no brake, gear untouched) instead of the estop command. -/
theorem fatal_alert_dropped_when_not_persistent :
    freshEnv.mpc_controller_conf_.enable_persistent_estop = false ∧
    (OnMonitor readySubmodule fatalMessage).estop_ = true ∧
    (ProduceControlCommand freshEnv 10 (OnMonitor readySubmodule fatalMessage)
        ControlCommand.empty).map
      (fun r => (r.self.estop_, r.control_command.throttle, r.control_command.brake,
        r.control_command.gear_location)) =
      some (false, 1 / 2, 0, GearPosition.GEAR_NEUTRAL) := by
  refine ⟨rfl, rfl, ?_⟩
  decide!

/-- C4 (fatal alert), as amended. With `enable_persistent_estop` set: after `OnMonitor`
receives a message with at least one item of level `FATAL`, `estop_` is true after every
sequence of later cycles and callbacks that holds no pad message with action `RESET`, and
every cycle that then returns ends with `estop_` true and returns the estop command. -/
theorem fatal_alert_sticky_when_persistent {σ : Type} (env : Env σ)
    (self s : MPCControllerSubmodule σ) (monitor_message : MonitorMessage)
    (evs : List Event) (now : ℚ) (cmd : ControlCommand) (r : Cycle σ)
    (hp : env.mpc_controller_conf_.enable_persistent_estop = true)
    (hfatal : ∃ item ∈ monitor_message.item, item.log_level = LogLevel.FATAL)
    (hnr : ∀ e ∈ evs, e.isReset = false)
    (hrun : run env (OnMonitor self monitor_message) evs = some s)
    (hcycle : ProduceControlCommand env now s cmd = some r) :
    s.estop_ = true ∧ r.self.estop_ = true ∧
      r.control_command.speed = 0 ∧ r.control_command.throttle = 0 ∧
      r.control_command.brake = env.mpc_controller_conf_.soft_estop_brake ∧
      r.control_command.gear_location = GearPosition.GEAR_DRIVE := by
  have h0 : (OnMonitor self monitor_message).estop_ = true :=
    OnMonitor_loop_fatal self monitor_message.item hfatal
  have h1 : s.estop_ = true := run_estop_mono env evs hp hnr _ s h0 hrun
  have h2 := ProduceControlCommand_latch env now s cmd r hp h1 hcycle
  exact ⟨h1, h2.1, h2.2⟩

/-- Witness for C4 as amended: persistent estop; a fatal message, then a new trajectory,
a cycle and a `START` pad message; the cycle after them still ends stopped with the estop
command. -/
theorem fatal_alert_sticky_when_persistent_witness :
    ∃ s r,
      run sampleEnv (OnMonitor readySubmodule fatalMessage)
        [Event.planning sampleTrajectory, Event.cycle 10 ControlCommand.empty,
          Event.pad ⟨some DrivingAction.START⟩] = some s ∧
      ProduceControlCommand sampleEnv 11 s ControlCommand.empty = some r ∧
      s.estop_ = true ∧ r.self.estop_ = true ∧
      r.control_command.speed = 0 ∧ r.control_command.throttle = 0 ∧
      r.control_command.brake = sampleEnv.mpc_controller_conf_.soft_estop_brake ∧
      r.control_command.gear_location = GearPosition.GEAR_DRIVE := by
  obtain ⟨s, hs⟩ := run_returns sampleEnv
    [Event.planning sampleTrajectory, Event.cycle 10 ControlCommand.empty,
      Event.pad ⟨some DrivingAction.START⟩] rfl (OnMonitor readySubmodule fatalMessage)
  obtain ⟨r, hr⟩ := ProduceControlCommand_returns sampleEnv 11 s ControlCommand.empty
    (Or.inl rfl)
  exact ⟨s, r, hs, hr,
    fatal_alert_sticky_when_persistent sampleEnv readySubmodule s fatalMessage _ 11
      ControlCommand.empty r rfl ⟨⟨LogLevel.FATAL⟩, by decide, rfl⟩ (by decide) hs hr⟩

/-- C5 (estop record invariant), counterexample to the claim as stated: from the initial
object, one monitor message with a fatal item leaves `estop_` true with an empty
`estop_reason_`; so does, after the three sample messages, one cycle in which the
controller fails with an empty error message. -/
theorem estop_set_without_reason :
    initialSubmodule.estopRecord = (false, "") ∧
    (run sampleEnv initialSubmodule [Event.monitor fatalMessage]).map
      (fun s => s.estopRecord) = some (true, "") ∧
    (run silentEnv initialSubmodule
      [Event.chassis sampleChassis, Event.planning sampleTrajectory,
        Event.localization sampleLocalization, Event.cycle 10 ControlCommand.empty]).map
      (fun s => s.estopRecord) = some (true, "") := by
  refine ⟨rfl, rfl, ?_⟩
  decide!

/-- C5 (estop record invariant), as amended. For a controller whose failed computations
carry a non-empty error message: in every state reached from an initial state with
`estop_` false and an empty reason by a sequence of `ProduceControlCommand` cycles, pad
messages, monitor messages without an item of level `FATAL`, and chassis, planning and
localization messages, `estop_reason_` is non-empty whenever `estop_` is true. -/
theorem estop_reason_given_without_fatal {σ : Type} (env : Env σ)
    (init s : MPCControllerSubmodule σ) (evs : List Event)
    (hinit : init.estop_ = false ∧ init.estop_reason_ = "")
    (hctl : ∀ st l ch t k,
      (env.mpc_controller.ComputeControlCommand st l ch t k).2.1.ok = false →
        (env.mpc_controller.ComputeControlCommand st l ch t k).2.1.error_message ≠ "")
    (hnf : ∀ e ∈ evs, e.isFatal = false)
    (hrun : run env init evs = some s)
    (he : s.estop_ = true) : s.estop_reason_ ≠ "" := by
  have h0 : ReasonGiven init := by
    intro h
    rw [hinit.1] at h
    exact absurd h (by simp)
  exact run_reasonGiven env evs hctl hnf init s h0 hrun he

/-- Witness for C5 as amended: the chassis, an empty trajectory, the localization and an
informational monitor message arrive, then a cycle runs; the estop is set and its reason is
not empty. -/
theorem estop_reason_given_without_fatal_witness :
    ∃ s, run sampleEnv initialSubmodule
        [Event.chassis sampleChassis, Event.planning emptyTrajectory,
          Event.localization sampleLocalization, Event.monitor ⟨[⟨LogLevel.INFO⟩]⟩,
          Event.cycle 10 ControlCommand.empty] = some s ∧
      s.estop_ = true ∧ s.estop_reason_ ≠ "" := by
  have h : (run sampleEnv initialSubmodule
      [Event.chassis sampleChassis, Event.planning emptyTrajectory,
        Event.localization sampleLocalization, Event.monitor ⟨[⟨LogLevel.INFO⟩]⟩,
        Event.cycle 10 ControlCommand.empty]).map (fun s => s.estop_) = some true := by
    decide
  obtain ⟨s, hs, he⟩ := Option.map_eq_some'.mp h
  exact ⟨s, hs, he,
    estop_reason_given_without_fatal sampleEnv initialSubmodule s _ ⟨rfl, rfl⟩
      (fun _ _ _ _ _ hbad => absurd (show true = false from hbad) (by decide))
      (by decide) hs he⟩

/-- C6 (empty-trajectory scenario), evaluated where the code departs from it: the
negative-speed protection is enabled and the snapshot trajectory has no points and no
planning estop flag. The cycle reads `trajectory_point(0)` out of range and returns
neither a status nor a command. -/
theorem empty_trajectory_cycle_reads_out_of_range :
    protectedEnv.FLAGS_enable_gear_dirve_negative_speed_protection = true ∧
    starvedSubmodule.snapshot.trajectory.trajectory_point = [] ∧
    starvedSubmodule.snapshot.trajectory.estop.is_estop = false ∧
    ProduceControlCommand protectedEnv 10 starvedSubmodule ControlCommand.empty = none :=
  ⟨rfl, rfl, rfl, rfl⟩

/-- C8 (staleness check, over exact numbers). `CheckTimestamp` returns OK when
`enable_input_timestamp_check` is false or `is_control_test_mode` is true. Otherwise it
returns OK exactly when each of the localization, chassis and trajectory ages
`now - header.timestamp_sec` is at most `max_miss_num * period` (an age equal to the
budget is not stale, any age above it is), and when some stream is over budget it returns
the timeout error named after the first over-budget stream in the order localization,
chassis, trajectory. -/
theorem CheckTimestamp_staleness (conf : MPCControllerConf) (now : ℚ) (local_view : LocalView) :
    ((conf.enable_input_timestamp_check = false ∨ conf.is_control_test_mode = true) →
      CheckTimestamp conf now local_view = Status.OK) ∧
    (¬ (conf.enable_input_timestamp_check = false ∨ conf.is_control_test_mode = true) →
      ((CheckTimestamp conf now local_view).ok = true ↔
        (now - local_view.localization.header.timestamp_sec ≤
            (conf.max_localization_miss_num : ℚ) * conf.localization_period ∧
          now - local_view.chassis.header.timestamp_sec ≤
            (conf.max_chassis_miss_num : ℚ) * conf.chassis_period ∧
          now - local_view.trajectory.header.timestamp_sec ≤
            (conf.max_planning_miss_num : ℚ) * conf.trajectory_period)) ∧
      ((conf.max_localization_miss_num : ℚ) * conf.localization_period <
          now - local_view.localization.header.timestamp_sec →
        CheckTimestamp conf now local_view =
          ⟨ErrorCode.CONTROL_COMPUTE_ERROR, "Localization msg timeout"⟩) ∧
      (now - local_view.localization.header.timestamp_sec ≤
          (conf.max_localization_miss_num : ℚ) * conf.localization_period →
        (conf.max_chassis_miss_num : ℚ) * conf.chassis_period <
          now - local_view.chassis.header.timestamp_sec →
        CheckTimestamp conf now local_view =
          ⟨ErrorCode.CONTROL_COMPUTE_ERROR, "Chassis msg timeout"⟩) ∧
      (now - local_view.localization.header.timestamp_sec ≤
          (conf.max_localization_miss_num : ℚ) * conf.localization_period →
        now - local_view.chassis.header.timestamp_sec ≤
          (conf.max_chassis_miss_num : ℚ) * conf.chassis_period →
        (conf.max_planning_miss_num : ℚ) * conf.trajectory_period <
          now - local_view.trajectory.header.timestamp_sec →
        CheckTimestamp conf now local_view =
          ⟨ErrorCode.CONTROL_COMPUTE_ERROR, "Trajectory msg timeout"⟩)) := by
  constructor
  · intro h
    unfold CheckTimestamp
    rw [if_pos h]
  · intro h
    unfold CheckTimestamp
    rw [if_neg h]
    dsimp only
    refine ⟨?_, ?_, ?_, ?_⟩
    · constructor
      · intro hok
        split_ifs at hok with h1 h2 h3
        · exact absurd hok (by simp [Status.ok])
        · exact absurd hok (by simp [Status.ok])
        · exact absurd hok (by simp [Status.ok])
        · exact ⟨not_lt.mp h1, not_lt.mp h2, not_lt.mp h3⟩
      · rintro ⟨h1, h2, h3⟩
        rw [if_neg (not_lt.mpr h1), if_neg (not_lt.mpr h2), if_neg (not_lt.mpr h3)]
        rfl
    · intro h1
      rw [if_pos h1]
    · intro h1 h2
      rw [if_neg (not_lt.mpr h1), if_pos h2]
    · intro h1 h2 h3
      rw [if_neg (not_lt.mpr h1), if_neg (not_lt.mpr h2), if_pos h3]

/-- Witness for C8: with a budget of 20 × 1/100 s per stream and all messages stamped at
10 s, the check passes at 10.2 s (ages equal to the budget) and names the localization
stream at 10.21 s. -/
theorem CheckTimestamp_staleness_witness :
    (CheckTimestamp sampleConf (51 / 5) sampleView).ok = true ∧
    CheckTimestamp sampleConf (1021 / 100) sampleView =
      ⟨ErrorCode.CONTROL_COMPUTE_ERROR, "Localization msg timeout"⟩ := by
  have hc : ¬ (sampleConf.enable_input_timestamp_check = false ∨
      sampleConf.is_control_test_mode = true) := by decide
  constructor
  · refine ((CheckTimestamp_staleness sampleConf (51 / 5) sampleView).2 hc).1.mpr ?_
    simp only [sampleConf, sampleView, sampleLocalization, sampleChassis, sampleTrajectory]
    norm_num
  · refine ((CheckTimestamp_staleness sampleConf (1021 / 100) sampleView).2 hc).2.1 ?_
    simp only [sampleConf, sampleView, sampleLocalization]
    norm_num

/-- C10 (validation outcome). `CheckInput` returns an error exactly when the trajectory
does not carry the estop flag and has no points. The error is `CONTROL_COMPUTE_ERROR`
with the message "planning has no trajectory point. planning_seq_num:" followed by the
decimal digits of the sequence number of the trajectory header; on error the local view is
left as it was and `VehicleStateProvider` is not updated. On success it is updated exactly
once, with the localization and the chassis of the snapshot. -/
theorem CheckInput_outcome (conf : MPCControllerConf) (local_view : LocalView) :
    ((CheckInput conf local_view).1.ok = false ↔
      (local_view.trajectory.estop.is_estop = false ∧
        local_view.trajectory.trajectory_point = [])) ∧
    ((CheckInput conf local_view).1.ok = false →
      (CheckInput conf local_view).1 =
        ⟨ErrorCode.CONTROL_COMPUTE_ERROR,
          "planning has no trajectory point. planning_seq_num:" ++
            String.mk (Nat.toDigits 10 local_view.trajectory.header.get_sequence_num)⟩ ∧
      (CheckInput conf local_view).2.1 = local_view ∧
      (CheckInput conf local_view).2.2 = []) ∧
    ((CheckInput conf local_view).1.ok = true →
      (CheckInput conf local_view).1 = Status.OK ∧
      (CheckInput conf local_view).2.2 = [(local_view.localization, local_view.chassis)]) := by
  unfold CheckInput
  by_cases h : local_view.trajectory.estop.is_estop = false ∧
      local_view.trajectory.trajectory_point.isEmpty = true
  · rw [if_pos h]
    have h2 : local_view.trajectory.trajectory_point = [] := List.isEmpty_iff.mp h.2
    refine ⟨?_, ?_, ?_⟩
    · exact ⟨fun _ => ⟨h.1, h2⟩, fun _ => rfl⟩
    · intro _
      exact ⟨rfl, rfl, rfl⟩
    · intro hok
      exact absurd hok (by simp [Status.ok])
  · rw [if_neg h]
    refine ⟨?_, ?_, ?_⟩
    · constructor
      · intro hok
        exact absurd hok (by simp [Status.ok, Status.OK])
      · rintro ⟨h1, h2⟩
        exact absurd ⟨h1, List.isEmpty_iff.mpr h2⟩ h
    · intro hok
      exact absurd hok (by simp [Status.ok, Status.OK])
    · intro _
      exact ⟨rfl, rfl⟩

/-- Witness for C10: an empty trajectory with sequence number 8 is rejected with the
number in the message and nothing sent to the sink; the sample view is accepted and the
sink receives its localization and chassis once. -/
theorem CheckInput_outcome_witness :
    (CheckInput sampleConf { sampleView with trajectory := emptyTrajectory }).1 =
      ⟨ErrorCode.CONTROL_COMPUTE_ERROR, "planning has no trajectory point. planning_seq_num:8"⟩ ∧
    (CheckInput sampleConf { sampleView with trajectory := emptyTrajectory }).2.2 = [] ∧
    (CheckInput sampleConf sampleView).2.2 = [(sampleLocalization, sampleChassis)] := by
  have h := CheckInput_outcome sampleConf { sampleView with trajectory := emptyTrajectory }
  have hbad := h.2.1 (h.1.mpr ⟨rfl, rfl⟩)
  have hgood := (CheckInput_outcome sampleConf sampleView).2.2 (by
    cases hk : (CheckInput sampleConf sampleView).1.ok
    · exact absurd ((CheckInput_outcome sampleConf sampleView).1.mp hk).2 (by decide)
    · rfl)
  refine ⟨?_, hbad.2.2, hgood.2⟩
  rw [hbad.1]
  decide

/-- C11 (near-standstill normalization). For every snapshot on which `CheckInput` succeeds,
the resulting trajectory has as many points as the original, and at every index the
resulting point is the original one with `v` and `a` set to 0 when the original has
`|v| < minimum_speed_resolution` and `|a| < max_acceleration_when_stopped`, and is the
original point otherwise; the chassis, the localization and the header, estop, replan flag
and decision of the trajectory are unchanged. -/
theorem CheckInput_normalizes (conf : MPCControllerConf) (local_view : LocalView)
    (h : (CheckInput conf local_view).1.ok = true) :
    (CheckInput conf local_view).2.1.trajectory.trajectory_point.length =
      local_view.trajectory.trajectory_point.length ∧
    (∀ i : Nat,
      (CheckInput conf local_view).2.1.trajectory.trajectory_point[i]? =
        (local_view.trajectory.trajectory_point[i]?).map (fun p =>
          if |p.v| < conf.minimum_speed_resolution ∧
              |p.a| < conf.max_acceleration_when_stopped then
            { p with v := 0, a := 0 }
          else p)) ∧
    (CheckInput conf local_view).2.1.chassis = local_view.chassis ∧
    (CheckInput conf local_view).2.1.localization = local_view.localization ∧
    (CheckInput conf local_view).2.1.trajectory.header = local_view.trajectory.header ∧
    (CheckInput conf local_view).2.1.trajectory.estop = local_view.trajectory.estop ∧
    (CheckInput conf local_view).2.1.trajectory.is_replan = local_view.trajectory.is_replan ∧
    (CheckInput conf local_view).2.1.trajectory.decision = local_view.trajectory.decision := by
  rw [CheckInput_of_ok conf local_view h]
  refine ⟨?_, ?_, rfl, rfl, rfl, rfl, rfl, rfl⟩
  · exact List.length_map _ _
  · intro i
    show (local_view.trajectory.trajectory_point.map (normalizePoint conf))[i]? = _
    rw [List.getElem?_map]
    rfl

/-- Witness for C11: the first point (velocity 1/10 below the resolution 1/5, acceleration
1/200 below 1/100) is zeroed and keeps its time, the second point is untouched. -/
theorem CheckInput_normalizes_witness :
    (CheckInput sampleConf { sampleView with trajectory := creepingTrajectory }).1.ok = true ∧
    (CheckInput sampleConf
      { sampleView with trajectory := creepingTrajectory }).2.1.trajectory.trajectory_point =
        [⟨0, 0, 3⟩, ⟨3, 1 / 2, 4⟩] := by
  have hok : (CheckInput sampleConf
      { sampleView with trajectory := creepingTrajectory }).1.ok = true := by decide
  have h := CheckInput_normalizes sampleConf
    { sampleView with trajectory := creepingTrajectory } hok
  refine ⟨hok, ?_⟩
  apply List.ext_getElem?
  intro i
  rw [h.2.1 i]
  match i with
  | 0 => decide!
  | 1 => decide!
  | (n + 2) => rfl

/-- C12 (reverse-speed guard). For every cycle on a trajectory with a first point: if the
negative-speed protection flag is enabled, the chassis gear is `GEAR_DRIVE` and the
velocity of the first point after normalization is below -0.001, the cycle ends with
`estop_` true and `estop_reason_` exactly "estop for negative speed when gear_drive",
whatever the earlier rules wrote, and returns the estop command; if the gear is not
`GEAR_DRIVE`, or that velocity is at least -0.001, or the flag is disabled, the object after
the guard is the object before it. With the flag disabled that holds on every
trajectory. -/
theorem negative_speed_protection {σ : Type} (env : Env σ) (now : ℚ)
    (self : MPCControllerSubmodule σ) (cmd : ControlCommand)
    (q : TrajectoryPoint) (qs : List TrajectoryPoint)
    (hpts : self.latest_trajectory_.trajectory_point = q :: qs) :
    (env.FLAGS_enable_gear_dirve_negative_speed_protection = true →
      self.latest_chassis_.gear_location = GearPosition.GEAR_DRIVE →
      (normalizePoint env.mpc_controller_conf_ q).v < -(1 / 1000) →
      ∃ r, ProduceControlCommand env now self cmd = some r ∧
        r.self.estop_ = true ∧
        r.self.estop_reason_ = "estop for negative speed when gear_drive" ∧
        r.control_command.speed = 0 ∧ r.control_command.throttle = 0 ∧
        r.control_command.brake = env.mpc_controller_conf_.soft_estop_brake ∧
        r.control_command.gear_location = GearPosition.GEAR_DRIVE) ∧
    ((env.FLAGS_enable_gear_dirve_negative_speed_protection = false ∨
        self.latest_chassis_.gear_location ≠ GearPosition.GEAR_DRIVE ∨
        -(1 / 1000) ≤ (normalizePoint env.mpc_controller_conf_ q).v) →
      checkEstop env (checkData env now (takeSnapshot self) cmd).self =
        some (planningEstop env (checkData env now (takeSnapshot self) cmd).self)) ∧
    (env.FLAGS_enable_gear_dirve_negative_speed_protection = false →
      ∀ s : MPCControllerSubmodule σ, checkEstop env s = some (planningEstop env s)) := by
  have hp : (checkData env now (takeSnapshot self) cmd).self.local_view_.trajectory.trajectory_point
      = normalizePoint env.mpc_controller_conf_ q ::
        qs.map (normalizePoint env.mpc_controller_conf_) := by
    rw [checkData_snapshot_points, hpts]
    rfl
  have hrule := checkEstop_of_first_point env _ _ _ hp
  rw [checkData_snapshot_chassis] at hrule
  refine ⟨?_, ?_, ?_⟩
  · intro hf hg hv
    rw [if_pos ⟨hf, hg, hv⟩] at hrule
    obtain ⟨r, hr, hself, hcmd, _⟩ :=
      ProduceControlCommand_of_stopped env now self _ cmd hrule rfl
    refine ⟨r, hr, ?_, ?_, hcmd⟩
    · rw [hself]
    · rw [hself]
  · intro hno
    rw [if_neg] at hrule
    · exact hrule
    · rintro ⟨hf, hg, hv⟩
      rcases hno with h | h | h
      · rw [hf] at h
        exact absurd h (by simp)
      · exact h hg
      · exact absurd hv (not_lt.mpr h)
  · intro hf s
    rw [checkEstop_eq_planningEstop, if_neg]
    rw [hf]
    simp

/-- Witness for C12: gear in drive, first point at -1/2 m/s, protection on, estop
recomputed every cycle: the cycle ends stopped with the negative-speed reason and the
estop command. -/
theorem negative_speed_protection_witness :
    ∃ r, ProduceControlCommand freshProtectedEnv 10 reversingSubmodule ControlCommand.empty =
        some r ∧
      r.self.estop_ = true ∧
      r.self.estop_reason_ = "estop for negative speed when gear_drive" ∧
      r.control_command.speed = 0 ∧ r.control_command.throttle = 0 ∧
      r.control_command.brake = freshProtectedEnv.mpc_controller_conf_.soft_estop_brake ∧
      r.control_command.gear_location = GearPosition.GEAR_DRIVE :=
  (negative_speed_protection freshProtectedEnv 10 reversingSubmodule ControlCommand.empty
    ⟨-1 / 2, 0, 0⟩ [⟨4, 1 / 2, 1 / 10⟩] rfl).1 rfl rfl (by decide!)

/-- C13 (non-persistent estop is recomputed fresh). With `enable_persistent_estop` false,
for every snapshot and every two prior values of `estop_` (whoever set them), the object
after the estop rules is the same in both runs and so is the whole outcome of the cycle:
the calls made to the controller, the returned status and the returned command. When the
two runs also start from different texts in `estop_reason_` (as after an earlier cycle),
the estop flag after the rules is the same and the outcomes differ at most in the text of
`estop_reason_`. The estop flag after the rules is true exactly when the trajectory
carries the planning estop flag, or has no points, or the negative-speed protection fires
(flag enabled, gear `GEAR_DRIVE`, first normalized velocity below -0.001). -/
theorem fresh_estop_ignores_prior_flag {σ : Type} (env : Env σ) (now : ℚ)
    (self : MPCControllerSubmodule σ) (cmd : ControlCommand) (b1 b2 : Bool)
    (reason1 reason2 : String)
    (hp : env.mpc_controller_conf_.enable_persistent_estop = false) :
    (checkEstop env (checkData env now (takeSnapshot { self with estop_ := b1 }) cmd).self =
      checkEstop env (checkData env now (takeSnapshot { self with estop_ := b2 }) cmd).self) ∧
    (ProduceControlCommand env now { self with estop_ := b1 } cmd =
      ProduceControlCommand env now { self with estop_ := b2 } cmd) ∧
    ((checkEstop env (checkData env now
        (takeSnapshot { self with estop_ := b1, estop_reason_ := reason1 }) cmd).self).map
        (fun d => d.estop_) =
      (checkEstop env (checkData env now
        (takeSnapshot { self with estop_ := b2, estop_reason_ := reason2 }) cmd).self).map
        (fun d => d.estop_)) ∧
    ((ProduceControlCommand env now { self with estop_ := b1, estop_reason_ := reason1 }
        cmd).map Cycle.withoutReason =
      (ProduceControlCommand env now { self with estop_ := b2, estop_reason_ := reason2 }
        cmd).map Cycle.withoutReason) ∧
    (∀ d, checkEstop env (checkData env now (takeSnapshot self) cmd).self = some d →
      (d.estop_ = true ↔
        (self.latest_trajectory_.estop.is_estop = true ∨
          self.latest_trajectory_.trajectory_point = [] ∨
          (env.FLAGS_enable_gear_dirve_negative_speed_protection = true ∧
            self.latest_chassis_.gear_location = GearPosition.GEAR_DRIVE ∧
            ∃ q qs, self.latest_trajectory_.trajectory_point = q :: qs ∧
              (normalizePoint env.mpc_controller_conf_ q).v < -(1 / 1000))))) := by
  refine ⟨?_, ?_, ?_, ?_, ?_⟩
  rotate_left 2
  · exact map_estop_of_withoutReason _ _
      ((checkEstop_checkData_fresh_record env now self cmd b1 reason1 hp).trans
        (checkEstop_checkData_fresh_record env now self cmd b2 reason2 hp).symm)
  · exact (ProduceControlCommand_fresh_record env now self cmd b1 reason1 hp).trans
      (ProduceControlCommand_fresh_record env now self cmd b2 reason2 hp).symm
  rotate_left 1
  · have h1 := checkData_with_estop env now self cmd b1
    have h2 := checkData_with_estop env now self cmd b2
    rw [h1, h2]
    dsimp only
    exact (checkEstop_fresh env _ _ hp).trans (checkEstop_fresh env _ _ hp).symm
  · rw [ProduceControlCommand_fresh env now self cmd b1 hp,
      ProduceControlCommand_fresh env now self cmd b2 hp]
  · intro d hd
    have hpl := planningEstop_estop_fresh env
      (checkData env now (takeSnapshot self) cmd).self hp
    rw [checkData_snapshot_estop, checkData_snapshot_points] at hpl
    cases hpts : self.latest_trajectory_.trajectory_point with
    | nil =>
      rw [hpts] at hpl
      have hflag : ¬ env.FLAGS_enable_gear_dirve_negative_speed_protection = true := by
        intro hf
        have hnone := (checkEstop_eq_none_iff env
          (checkData env now (takeSnapshot self) cmd).self).mpr
          ⟨hf, by rw [checkData_snapshot_points, hpts]; rfl⟩
        rw [hnone] at hd
        exact absurd hd (by simp)
      rw [checkEstop_eq_planningEstop, if_neg hflag] at hd
      cases hd
      rw [hpl]
      simp
    | cons q qs =>
      rw [hpts] at hpl
      have hp2 : (checkData env now (takeSnapshot self)
          cmd).self.local_view_.trajectory.trajectory_point =
          normalizePoint env.mpc_controller_conf_ q ::
            qs.map (normalizePoint env.mpc_controller_conf_) := by
        rw [checkData_snapshot_points, hpts]
        rfl
      rw [checkEstop_of_first_point env _ _ _ hp2, checkData_snapshot_chassis] at hd
      by_cases hfire : env.FLAGS_enable_gear_dirve_negative_speed_protection = true ∧
          self.latest_chassis_.gear_location = GearPosition.GEAR_DRIVE ∧
          (normalizePoint env.mpc_controller_conf_ q).v < -(1 / 1000)
      · rw [if_pos hfire] at hd
        cases hd
        constructor
        · intro _
          exact Or.inr (Or.inr ⟨hfire.1, hfire.2.1, q, qs, rfl, hfire.2.2⟩)
        · intro _
          rfl
      · rw [if_neg hfire] at hd
        cases hd
        rw [hpl]
        constructor
        · intro h
          simp at h
          exact Or.inl h
        · rintro (h | h | ⟨hf, hg, q2, qs2, he, hv⟩)
          · simp [h]
          · exact absurd h (by simp)
          · cases he
            exact absurd ⟨hf, hg, hv⟩ hfire

/-- Witness for C13: estop recomputed every cycle; with `estop_` false and with `estop_`
true before the cycle (as `OnMonitor` leaves it on a fatal item) the cycle on the sample
snapshot has the same outcome, one computation by the controller and no estop. -/
theorem fresh_estop_ignores_prior_flag_witness :
    ProduceControlCommand freshEnv 10 { readySubmodule with estop_ := false }
        ControlCommand.empty =
      ProduceControlCommand freshEnv 10 { readySubmodule with estop_ := true }
        ControlCommand.empty ∧
    OnMonitor readySubmodule fatalMessage = { readySubmodule with estop_ := true } ∧
    (ProduceControlCommand freshEnv 10 { readySubmodule with estop_ := true }
        ControlCommand.empty).map (fun r => (r.self.estop_, r.controller_calls.length)) =
      some (false, 1) :=
  ⟨(fresh_estop_ignores_prior_flag freshEnv 10 readySubmodule ControlCommand.empty
      false true "" "" rfl).2.1, rfl, by decide!⟩

/-- C14 (compute failure). For every cycle in which the estop flag is false after the
estop rules and `ComputeControlCommand` of the external controller returns a status that is
not OK, the cycle ends with `estop_` true and `estop_reason_` equal to the error message
of the controller, the status returned by `ProduceControlCommand` is the status of the
controller, whatever the checks reported, and the returned command is the estop command. -/
theorem compute_failure_stops {σ : Type} (env : Env σ) (now : ℚ)
    (self d : MPCControllerSubmodule σ) (cmd : ControlCommand)
    (hd : checkEstop env (checkData env now (takeSnapshot self) cmd).self = some d)
    (hne : d.estop_ = false)
    (hbad : (delegate env
      { checkData env now (takeSnapshot self) cmd with self := d }).2.1.ok = false) :
    ∃ r, ProduceControlCommand env now self cmd = some r ∧
      r.self.estop_ = true ∧
      r.self.estop_reason_ =
        (delegate env
          { checkData env now (takeSnapshot self) cmd with self := d }).2.1.error_message ∧
      r.status =
        (delegate env { checkData env now (takeSnapshot self) cmd with self := d }).2.1 ∧
      r.control_command.speed = 0 ∧ r.control_command.throttle = 0 ∧
      r.control_command.brake = env.mpc_controller_conf_.soft_estop_brake ∧
      r.control_command.gear_location = GearPosition.GEAR_DRIVE := by
  refine ⟨_, ProduceControlCommand_of_checkEstop env now self d cmd hd, ?_⟩
  have hrun := runController_of_running env
    { checkData env now (takeSnapshot self) cmd with self := d } hne
  rw [if_pos hbad] at hrun
  rw [hrun]
  refine ⟨?_, ?_, ?_, ?_⟩
  · rw [checkSignal_self, setEstopCommand_self]
  · rw [checkSignal_self, setEstopCommand_self]
  · rw [checkSignal_status, setEstopCommand_status]
  · exact checkSignal_estopCommand _ _ (setEstopCommand_of_estop env _ rfl)

/-- Witness for C14: the messages are stale (clock at 11 s), the estop rules leave the
flag false, the controller writes throttle 1/2 and fails with "mpc solver failed": the
cycle ends stopped with that reason, reports the status of the controller and returns the
estop command. -/
theorem compute_failure_stops_witness :
    ∃ r, ProduceControlCommand failingEnv 11 readySubmodule ControlCommand.empty = some r ∧
      r.self.estop_ = true ∧
      r.self.estop_reason_ = "mpc solver failed" ∧
      r.status = ⟨ErrorCode.other 7, "mpc solver failed"⟩ ∧
      r.control_command.speed = 0 ∧ r.control_command.throttle = 0 ∧
      r.control_command.brake = failingEnv.mpc_controller_conf_.soft_estop_brake ∧
      r.control_command.gear_location = GearPosition.GEAR_DRIVE := by
  have h : (checkEstop failingEnv (checkData failingEnv 11 (takeSnapshot readySubmodule)
      ControlCommand.empty).self).map (fun d => d.estop_) = some false := by
    decide!
  obtain ⟨d, hd, hne⟩ := Option.map_eq_some'.mp h
  exact compute_failure_stops failingEnv 11 readySubmodule d ControlCommand.empty hd hne rfl

/-- C15 (exactly one command per cycle), evaluated where the code departs from it: the
chassis reader has a message, the negative-speed protection is enabled and the latest
trajectory has no points. The cycle inside `Proc` reads `trajectory_point(0)` out of
range, so `Proc` neither writes a command nor returns. -/
theorem Proc_reads_out_of_range :
    protectedEnv.FLAGS_enable_gear_dirve_negative_speed_protection = true ∧
    (OnChassis starvedSubmodule sampleChassis).latest_trajectory_.trajectory_point = [] ∧
    ProduceControlCommand protectedEnv 10 (OnChassis starvedSubmodule sampleChassis)
      ControlCommand.empty = none ∧
    Proc protectedEnv 10 starvedSubmodule (some sampleChassis) = none :=
  ⟨rfl, rfl, rfl, rfl⟩

/-- C16 (upstream estop reason), counterexample to the claim as stated: the trajectory
carries the planning estop with reason "obstacle" and has two points, the protection is
off; the cycle ends with `estop_reason_` "estop from planning : obstacle", with a blank
before the colon, which is not "estop from planning: " followed by the reason. -/
theorem planning_estop_reason_has_blank :
    planningEstopSubmodule.latest_trajectory_.estop = ⟨true, "obstacle"⟩ ∧
    (ProduceControlCommand sampleEnv 10 planningEstopSubmodule ControlCommand.empty).map
      (fun r => (r.self.estop_, r.self.estop_reason_)) =
      some (true, "estop from planning : obstacle") ∧
    "estop from planning : obstacle" ≠
      "estop from planning: " ++ planningEstopSubmodule.latest_trajectory_.estop.reason := by
  refine ⟨rfl, ?_, by decide⟩
  decide!

/-- C16 (upstream estop reason), as amended. For every cycle whose snapshot trajectory
carries `is_estop = true` and has at least one point, and in which the negative-speed
protection does not fire, for both persistence settings and every prior estop record, the
cycle returns and ends with `estop_` true and `estop_reason_` equal to
"estop from planning : " (with a blank before the colon) followed by the estop reason of
the trajectory. -/
theorem planning_estop_reason {σ : Type} (env : Env σ) (now : ℚ)
    (self : MPCControllerSubmodule σ) (cmd : ControlCommand)
    (q : TrajectoryPoint) (qs : List TrajectoryPoint)
    (he : self.latest_trajectory_.estop.is_estop = true)
    (hpts : self.latest_trajectory_.trajectory_point = q :: qs)
    (hquiet : ¬ (env.FLAGS_enable_gear_dirve_negative_speed_protection = true ∧
      self.latest_chassis_.gear_location = GearPosition.GEAR_DRIVE ∧
      (normalizePoint env.mpc_controller_conf_ q).v < -(1 / 1000))) :
    ∃ r, ProduceControlCommand env now self cmd = some r ∧
      r.self.estop_ = true ∧
      r.self.estop_reason_ =
        "estop from planning : " ++ self.latest_trajectory_.estop.reason := by
  have hp : (checkData env now (takeSnapshot self) cmd).self.local_view_.trajectory.trajectory_point
      = normalizePoint env.mpc_controller_conf_ q ::
        qs.map (normalizePoint env.mpc_controller_conf_) := by
    rw [checkData_snapshot_points, hpts]
    rfl
  have hrule := checkEstop_of_first_point env _ _ _ hp
  rw [checkData_snapshot_chassis, if_neg hquiet] at hrule
  have hpl := planningEstop_of_planning_estop env
    (checkData env now (takeSnapshot self) cmd).self
    (by rw [checkData_snapshot_estop]; exact he) (by rw [hp]; rfl)
  rw [checkData_snapshot_estop] at hpl
  obtain ⟨r, hr, hself, _⟩ :=
    ProduceControlCommand_of_stopped env now self _ cmd hrule hpl.1
  refine ⟨r, hr, ?_, ?_⟩
  · rw [hself]; exact hpl.1
  · rw [hself]; exact hpl.2

/-- Witness for C16 as amended: estop recomputed every cycle, protection on, gear in
drive, first point at 3 m/s, planning estop with reason "obstacle". -/
theorem planning_estop_reason_witness :
    ∃ r, ProduceControlCommand freshProtectedEnv 10 planningEstopSubmodule
        ControlCommand.empty = some r ∧
      r.self.estop_ = true ∧
      r.self.estop_reason_ = "estop from planning : " ++ "obstacle" :=
  planning_estop_reason freshProtectedEnv 10 planningEstopSubmodule ControlCommand.empty
    ⟨3, 1 / 2, 0⟩ [⟨4, 1 / 2, 1 / 10⟩] rfl rfl (by decide!)

/-- C17 (retained replan header), counterexample to the claim as stated: the snapshot
trajectory has `is_replan` set and carries the planning estop; the cycle ends stopped and
the retained header is still the default header, not the header of the trajectory. -/
theorem replan_header_not_retained_when_stopped :
    planningEstopSubmodule.latest_trajectory_.is_replan = true ∧
    planningEstopSubmodule.latest_trajectory_.header = ⟨10, some 7⟩ ∧
    planningEstopSubmodule.latest_replan_trajectory_header_ = Header.empty ∧
    (ProduceControlCommand sampleEnv 10 planningEstopSubmodule ControlCommand.empty).map
      (fun r => (r.self.estop_, r.self.latest_replan_trajectory_header_)) =
      some (true, Header.empty) ∧
    Header.empty ≠ planningEstopSubmodule.latest_trajectory_.header := by
  refine ⟨rfl, rfl, rfl, ?_, ?_⟩
  · decide!
  · decide!

/-- C17 (retained replan header), as amended. For every cycle that returns: if the
snapshot trajectory has `is_replan` set and the estop flag is false after the estop rules
(so the controller is asked), `latest_replan_trajectory_header_` after the cycle is the
header of that trajectory; in every other cycle (`is_replan` not set, or the estop flag set
after the estop rules) it is unchanged. It is unchanged under `OnPad` (with `RESET` too),
`OnMonitor`, `OnChassis`, `OnPlanning` and `OnLocalization`. -/
theorem replan_header_retained {σ : Type} (env : Env σ) (now : ℚ)
    (self d : MPCControllerSubmodule σ) (cmd : ControlCommand) (r : Cycle σ)
    (hd : checkEstop env (checkData env now (takeSnapshot self) cmd).self = some d)
    (hr : ProduceControlCommand env now self cmd = some r) :
    (r.self.latest_replan_trajectory_header_ =
      if d.estop_ = false ∧ self.latest_trajectory_.is_replan = true then
        self.latest_trajectory_.header
      else self.latest_replan_trajectory_header_) ∧
    (∀ pad, (OnPad self pad).latest_replan_trajectory_header_ =
      self.latest_replan_trajectory_header_) ∧
    (∀ monitor_message, (OnMonitor self monitor_message).latest_replan_trajectory_header_ =
      self.latest_replan_trajectory_header_) ∧
    (∀ chassis, (OnChassis self chassis).latest_replan_trajectory_header_ =
      self.latest_replan_trajectory_header_) ∧
    (∀ trajectory, (OnPlanning self trajectory).latest_replan_trajectory_header_ =
      self.latest_replan_trajectory_header_) ∧
    (∀ localization, (OnLocalization self localization).latest_replan_trajectory_header_ =
      self.latest_replan_trajectory_header_) := by
  refine ⟨?_, fun pad => OnPad_replan self pad,
    fun m => OnMonitor_loop_replan self m.item, fun _ => rfl, fun _ => rfl, fun _ => rfl⟩
  rw [ProduceControlCommand_of_checkEstop env now self d cmd hd] at hr
  cases hr
  rw [checkSignal_self, setEstopCommand_self, runController_replan]
  have hframe := checked_frame env now self d cmd hd
  have h1 : d.local_view_ = (CheckInput env.mpc_controller_conf_ self.snapshot).2.1 := by
    have hk := congrArg MPCControllerSubmodule.local_view_ hframe
    exact hk
  have h2 : d.latest_replan_trajectory_header_ = self.latest_replan_trajectory_header_ := by
    have hk := congrArg MPCControllerSubmodule.latest_replan_trajectory_header_ hframe
    exact hk
  have h3 : d.local_view_.trajectory.is_replan = self.latest_trajectory_.is_replan := by
    rw [h1, CheckInput_trajectory]
    rfl
  have h4 : d.local_view_.trajectory.header = self.latest_trajectory_.header := by
    rw [h1, CheckInput_header]
    rfl
  show (if d.estop_ = false ∧ d.local_view_.trajectory.is_replan = true then
      d.local_view_.trajectory.header else d.latest_replan_trajectory_header_) = _
  rw [h2, h3, h4]

/-- Witness for C17 as amended: manual mode, a replanned trajectory without estop; the
header of the trajectory (sequence number 7) is retained by the cycle. -/
theorem replan_header_retained_witness :
    ∃ d r,
      checkEstop sampleEnv (checkData sampleEnv 10 (takeSnapshot replanSubmodule)
        ControlCommand.empty).self = some d ∧
      ProduceControlCommand sampleEnv 10 replanSubmodule ControlCommand.empty = some r ∧
      d.estop_ = false ∧
      r.self.latest_replan_trajectory_header_ = ⟨10, some 7⟩ := by
  have h : (checkEstop sampleEnv (checkData sampleEnv 10 (takeSnapshot replanSubmodule)
      ControlCommand.empty).self).map (fun d => d.estop_) = some false := by
    decide!
  obtain ⟨d, hd, hne⟩ := Option.map_eq_some'.mp h
  obtain ⟨r, hr⟩ := ProduceControlCommand_returns sampleEnv 10 replanSubmodule
    ControlCommand.empty (Or.inl rfl)
  have hthm := (replan_header_retained sampleEnv 10 replanSubmodule d ControlCommand.empty r
    hd hr).1
  rw [if_pos ⟨hne, rfl⟩] at hthm
  exact ⟨d, r, hd, hr, hne, hthm⟩

/-- C18 (the controller is touched only when not stopped). For every cycle that returns:
a trajectory with the planning estop flag leaves the estop flag set after the estop rules;
if that flag is set, no call is made to the controller and its state is untouched; if it is
not set, the calls made are, in order, one `Reset` exactly when the chassis driving mode is
`COMPLETE_MANUAL`, then exactly one `ComputeControlCommand` on the localization, the
chassis and the (normalized) trajectory of the validated snapshot, and the controller is
left in the state that computation returns. -/
theorem controller_calls_of_cycle {σ : Type} (env : Env σ) (now : ℚ)
    (self d : MPCControllerSubmodule σ) (cmd : ControlCommand) (r : Cycle σ)
    (hd : checkEstop env (checkData env now (takeSnapshot self) cmd).self = some d)
    (hr : ProduceControlCommand env now self cmd = some r) :
    (self.latest_trajectory_.estop.is_estop = true → d.estop_ = true) ∧
    (d.estop_ = true →
      r.controller_calls = [] ∧ r.self.mpc_controller_ = self.mpc_controller_) ∧
    (d.estop_ = false →
      r.controller_calls =
        (if self.latest_chassis_.driving_mode = DrivingMode.COMPLETE_MANUAL then
          [ControllerCall.Reset] else []) ++
        [ControllerCall.ComputeControlCommand self.latest_localization_ self.latest_chassis_
          { self.latest_trajectory_ with
            trajectory_point :=
              self.latest_trajectory_.trajectory_point.map
                (normalizePoint env.mpc_controller_conf_) }
          (attachDebug { checkData env now (takeSnapshot self) cmd with self := d })] ∧
      r.self.mpc_controller_ =
        (env.mpc_controller.ComputeControlCommand
          (if self.latest_chassis_.driving_mode = DrivingMode.COMPLETE_MANUAL then
            env.mpc_controller.Reset self.mpc_controller_ else self.mpc_controller_)
          self.latest_localization_ self.latest_chassis_
          { self.latest_trajectory_ with
            trajectory_point :=
              self.latest_trajectory_.trajectory_point.map
                (normalizePoint env.mpc_controller_conf_) }
          (attachDebug { checkData env now (takeSnapshot self) cmd with self := d })).1) := by
  have hframe := checked_frame env now self d cmd hd
  have hctl : d.mpc_controller_ = self.mpc_controller_ := by
    have hk := congrArg MPCControllerSubmodule.mpc_controller_ hframe
    exact hk
  have hlv : d.local_view_ = (CheckInput env.mpc_controller_conf_ self.snapshot).2.1 := by
    have hk := congrArg MPCControllerSubmodule.local_view_ hframe
    exact hk
  have hloc : d.local_view_.localization = self.latest_localization_ := by
    rw [hlv, CheckInput_localization]
    rfl
  have hch : d.local_view_.chassis = self.latest_chassis_ := by
    rw [hlv, CheckInput_chassis]
    rfl
  have htr : d.local_view_.trajectory =
      { self.latest_trajectory_ with
        trajectory_point :=
          self.latest_trajectory_.trajectory_point.map
            (normalizePoint env.mpc_controller_conf_) } := by
    rw [hlv, CheckInput_trajectory]
    rfl
  refine ⟨?_, ?_, ?_⟩
  · intro he
    exact checkEstop_estop_of_planning env _ d
      (by rw [checkData_snapshot_estop]; exact he) hd
  · intro he
    obtain ⟨r2, hr2, hself, _, hcalls, _⟩ :=
      ProduceControlCommand_of_stopped env now self d cmd hd he
    rw [hr] at hr2
    cases hr2
    exact ⟨hcalls, by rw [hself]; exact hctl⟩
  · intro hne
    rw [ProduceControlCommand_of_checkEstop env now self d cmd hd] at hr
    cases hr
    have hrun := runController_calls env
      { checkData env now (takeSnapshot self) cmd with self := d } hne
    have hlogs := (checkData_fresh_logs env now (takeSnapshot self) cmd).1
    rw [checkSignal_controller_calls, setEstopCommand_controller_calls, checkSignal_self,
      setEstopCommand_self, hrun.1, hrun.2]
    unfold delegate resetInManual
    dsimp only
    rw [hlogs, hloc, hch, htr, hctl]
    constructor
    · split <;> rfl
    · split <;> rfl

/-- Witness for C18: manual driving mode, no estop: the controller is reset and then asked
once, on the latest localization and chassis. -/
theorem controller_calls_of_cycle_witness :
    ∃ d r,
      checkEstop sampleEnv (checkData sampleEnv 10 (takeSnapshot manualSubmodule)
        ControlCommand.empty).self = some d ∧
      ProduceControlCommand sampleEnv 10 manualSubmodule ControlCommand.empty = some r ∧
      d.estop_ = false ∧
      r.controller_calls.length = 2 ∧
      r.controller_calls.head? = some ControllerCall.Reset ∧
      r.self.mpc_controller_ = 1 := by
  have h : (checkEstop sampleEnv (checkData sampleEnv 10 (takeSnapshot manualSubmodule)
      ControlCommand.empty).self).map (fun d => d.estop_) = some false := by
    decide!
  obtain ⟨d, hd, hne⟩ := Option.map_eq_some'.mp h
  obtain ⟨r, hr⟩ := ProduceControlCommand_returns sampleEnv 10 manualSubmodule
    ControlCommand.empty (Or.inl rfl)
  have hthm := (controller_calls_of_cycle sampleEnv 10 manualSubmodule d
    ControlCommand.empty r hd hr).2.2 hne
  refine ⟨d, r, hd, hr, hne, ?_, ?_, ?_⟩
  · rw [hthm.1]
    rfl
  · rw [hthm.1]
    rfl
  · rw [hthm.2]
    rfl

/-- C19 (in-bounds first-point read), evaluated where the code departs from it: with the
negative-speed protection enabled, the object as constructed (no planning message has
arrived, so the trajectory has no points) and the object whose latest trajectory is empty
both reach the read of `trajectory_point(0)` with an empty list of points: the index is
out of range and the cycle has no result. -/
theorem first_point_read_out_of_range :
    protectedEnv.FLAGS_enable_gear_dirve_negative_speed_protection = true ∧
    (checkData protectedEnv 0 (takeSnapshot initialSubmodule)
      ControlCommand.empty).self.local_view_.trajectory.trajectory_point[0]? = none ∧
    checkEstop protectedEnv (checkData protectedEnv 0 (takeSnapshot initialSubmodule)
      ControlCommand.empty).self = none ∧
    ProduceControlCommand protectedEnv 0 initialSubmodule ControlCommand.empty = none ∧
    ProduceControlCommand protectedEnv 10
      (OnPlanning readySubmodule { emptyTrajectory with estop := ⟨true, "stop"⟩ })
      ControlCommand.empty = none :=
  ⟨rfl, rfl, rfl, rfl, (ProduceControlCommand_eq_none_iff _ _ _ _).mpr ⟨rfl, rfl⟩⟩

/-- C20 (engage advice ignores the estop state). The command as the checks leave it,
before the controller is asked, is the same for every prior estop record, and is
determined by the incoming command, the validation result, the staleness result and the
chassis driving mode: `DISALLOW_ENGAGE` with the validation message when validation
fails; when the staleness check fails, `DISALLOW_ENGAGE` with the staleness message
unless the driving mode is `COMPLETE_AUTO_DRIVE` (then nothing is written);
`READY_TO_ENGAGE` otherwise. In particular a cycle that starts with `estop_` latched under
persistent configuration, on a trajectory with points and with `CheckTimestamp`
succeeding, returns the estop command carrying the advice `READY_TO_ENGAGE`. -/
theorem engage_advice_ignores_estop {σ : Type} (env : Env σ) (now : ℚ)
    (self : MPCControllerSubmodule σ) (cmd : ControlCommand) :
    (∀ (b : Bool) (reason : String),
      (checkData env now (takeSnapshot { self with estop_ := b, estop_reason_ := reason })
        cmd).control_command =
      (checkData env now (takeSnapshot self) cmd).control_command) ∧
    ((checkData env now (takeSnapshot self) cmd).control_command =
      if (CheckInput env.mpc_controller_conf_ self.snapshot).1.ok = false then
        { cmd with
          engage_advice :=
            ⟨Advice.DISALLOW_ENGAGE,
              (CheckInput env.mpc_controller_conf_ self.snapshot).1.error_message⟩ }
      else if (CheckTimestamp env.mpc_controller_conf_ now self.snapshot).ok = false then
        (if self.latest_chassis_.driving_mode ≠ DrivingMode.COMPLETE_AUTO_DRIVE then
          { cmd with
            engage_advice :=
              ⟨Advice.DISALLOW_ENGAGE,
                (CheckTimestamp env.mpc_controller_conf_ now self.snapshot).error_message⟩ }
        else cmd)
      else
        { cmd with
          engage_advice := { cmd.engage_advice with advice := Advice.READY_TO_ENGAGE } }) ∧
    (env.mpc_controller_conf_.enable_persistent_estop = true → self.estop_ = true →
      self.latest_trajectory_.trajectory_point ≠ [] →
      (CheckTimestamp env.mpc_controller_conf_ now self.snapshot).ok = true →
      ∃ r, ProduceControlCommand env now self cmd = some r ∧
        r.self.estop_ = true ∧
        r.control_command.speed = 0 ∧ r.control_command.throttle = 0 ∧
        r.control_command.brake = env.mpc_controller_conf_.soft_estop_brake ∧
        r.control_command.gear_location = GearPosition.GEAR_DRIVE ∧
        r.control_command.engage_advice.advice = Advice.READY_TO_ENGAGE) := by
  refine ⟨?_, checkData_command env now self cmd, ?_⟩
  · intro b reason
    rw [checkData_command env now self cmd,
      checkData_command env now { self with estop_ := b, estop_reason_ := reason } cmd]
    rfl
  · intro hp he hpts hts
    obtain ⟨r, hr⟩ := ProduceControlCommand_returns env now self cmd (Or.inr hpts)
    obtain ⟨d, hd, _⟩ := ProduceControlCommand_eq_some env now self cmd r hr
    have h1 : (checkData env now (takeSnapshot self) cmd).self.estop_ = true :=
      checkData_estop_mono env now _ cmd he
    have h2 : d.estop_ = true := checkEstop_estop_of_persistent env _ d hp h1 hd
    obtain ⟨r2, hr2, hself, hcmd, _, _, _, hadv⟩ :=
      ProduceControlCommand_of_stopped env now self d cmd hd h2
    rw [hr] at hr2
    cases hr2
    refine ⟨r, hr, by rw [hself]; exact h2, hcmd.1, hcmd.2.1, hcmd.2.2.1, hcmd.2.2.2, ?_⟩
    rw [hadv, checkData_command,
      if_neg (CheckInput_ok_of_points env.mpc_controller_conf_ self.snapshot hpts),
      if_neg (by rw [hts]; simp)]

/-- Witness for C20: the estop is latched under persistent configuration, the sample
messages are fresh; the cycle returns the estop command with advice `READY_TO_ENGAGE`. -/
theorem engage_advice_ignores_estop_witness :
    ∃ r, ProduceControlCommand sampleEnv 10 stoppedSubmodule ControlCommand.empty = some r ∧
      r.self.estop_ = true ∧
      r.control_command.speed = 0 ∧ r.control_command.throttle = 0 ∧
      r.control_command.brake = sampleEnv.mpc_controller_conf_.soft_estop_brake ∧
      r.control_command.gear_location = GearPosition.GEAR_DRIVE ∧
      r.control_command.engage_advice.advice = Advice.READY_TO_ENGAGE :=
  (engage_advice_ignores_estop sampleEnv 10 stoppedSubmodule ControlCommand.empty).2.2
    rfl rfl (by decide) (by decide!)

end control
end apollo
